import Mathlib

/-!
Verification of the n8n tool adapter (src/nodejs/src/tools/n8n.js) against its
natural-language specification.

The JavaScript module is embedded shallowly: JS values are modelled by the
inductive type `Val` (JS numbers are modelled as integers plus a NaN marker;
floating point is not needed by any verified property), JS objects are
association lists, and every impure read (credential store, network, clock)
is an explicit parameter.  Each operation returns its formatted text result
together with the list of network requests it issued.
-/

namespace N8n

/-- A JavaScript runtime value.  Numbers are modelled as integers plus an
explicit NaN marker; objects are association lists of fields in insertion
order. -/
inductive Val where
  | vnull
  | vundef
  | vbool (b : Bool)
  | vnum (n : Int)
  | vnan
  | vstr (s : String)
  | varr (elems : List Val)
  | vobj (fields : List (String × Val))
deriving Repr

mutual

def Val.beq : Val → Val → Bool
  | .vnull, .vnull => true
  | .vundef, .vundef => true
  | .vbool a, .vbool b => a == b
  | .vnum a, .vnum b => a == b
  | .vnan, .vnan => true
  | .vstr a, .vstr b => a == b
  | .varr xs, .varr ys => Val.beqList xs ys
  | .vobj xs, .vobj ys => Val.beqFields xs ys
  | _, _ => false

def Val.beqList : List Val → List Val → Bool
  | [], [] => true
  | x :: xs, y :: ys => Val.beq x y && Val.beqList xs ys
  | _, _ => false

def Val.beqFields : List (String × Val) → List (String × Val) → Bool
  | [], [] => true
  | (k₁, v₁) :: xs, (k₂, v₂) :: ys => k₁ == k₂ && Val.beq v₁ v₂ && Val.beqFields xs ys
  | _, _ => false

end

mutual

def Val.beq_iff : ∀ a b : Val, Val.beq a b = true ↔ a = b
  | .vnull, b => by cases b <;> simp [Val.beq]
  | .vundef, b => by cases b <;> simp [Val.beq]
  | .vbool a, b => by cases b <;> simp [Val.beq]
  | .vnum a, b => by cases b <;> simp [Val.beq]
  | .vnan, b => by cases b <;> simp [Val.beq]
  | .vstr a, b => by cases b <;> simp [Val.beq]
  | .varr xs, b => by
      cases b <;> simp [Val.beq]
      exact Val.beqList_iff xs _
  | .vobj xs, b => by
      cases b <;> simp [Val.beq]
      exact Val.beqFields_iff xs _

def Val.beqList_iff : ∀ xs ys : List Val, Val.beqList xs ys = true ↔ xs = ys
  | [], ys => by cases ys <;> simp [Val.beqList]
  | x :: xs, ys => by
      cases ys with
      | nil => simp [Val.beqList]
      | cons y ys =>
        simp only [Val.beqList, Bool.and_eq_true, List.cons.injEq]
        rw [Val.beq_iff, Val.beqList_iff]

def Val.beqFields_iff : ∀ xs ys : List (String × Val),
    Val.beqFields xs ys = true ↔ xs = ys
  | [], ys => by cases ys <;> simp [Val.beqFields]
  | (k, v) :: xs, ys => by
      cases ys with
      | nil => simp [Val.beqFields]
      | cons p ys =>
        obtain ⟨k₂, v₂⟩ := p
        simp only [Val.beqFields, Bool.and_eq_true, List.cons.injEq, Prod.mk.injEq,
          beq_iff_eq]
        rw [Val.beq_iff, Val.beqFields_iff]

end

instance : DecidableEq Val := fun a b =>
  decidable_of_iff (Val.beq a b = true) (Val.beq_iff a b)

/-- JS truthiness. -/
def truthy : Val → Bool
  | .vnull => false
  | .vundef => false
  | .vbool b => b
  | .vnum n => n != 0
  | .vnan => false
  | .vstr s => s != ""
  | .varr _ => true
  | .vobj _ => true

/-- First-match association-list lookup (JS objects have unique keys). -/
def olookup : List (String × Val) → String → Option Val
  | [], _ => none
  | (k, v) :: rest, key => if k = key then some v else olookup rest key

/-- Property read a.k (undefined when absent or when the receiver is not an
object; the source either guards such reads with truthy checks or uses
optional chaining). -/
def getField : Val → String → Val
  | .vobj fs, k => (olookup fs k).getD .vundef
  | _, _ => Val.vundef

/-- Array index read a[i]. -/
def getIndex : Val → Nat → Val
  | .varr xs, i => (xs.get? i).getD .vundef
  | _, _ => Val.vundef

/-- JS a || b. -/
def jsOr (a b : Val) : Val := if truthy a then a else b

/-- Is the value null or undefined. -/
def isNullOrUndef : Val → Bool
  | .vnull => true
  | .vundef => true
  | _ => false

/-- Array.isArray. -/
def isArray : Val → Bool
  | .varr _ => true
  | _ => false

/-- JS typeof v === 'object' (true for objects, arrays and null). -/
def typeofObject : Val → Bool
  | .vobj _ => true
  | .varr _ => true
  | .vnull => true
  | _ => false

mutual

/-- JS String(v) coercion (array elements that are null/undefined print as
empty, per Array.prototype.toString). -/
def jsString : Val → String
  | .vnull => "null"
  | .vundef => "undefined"
  | .vbool b => if b then "true" else "false"
  | .vnum n => toString n
  | .vnan => "NaN"
  | .vstr s => s
  | .varr xs => jsStringList xs
  | .vobj _ => "[object Object]"

def jsStringList : List Val → String
  | [] => ""
  | [x] => jsStringElem x
  | x :: xs => jsStringElem x ++ "," ++ jsStringList xs

def jsStringElem : Val → String
  | .vnull => ""
  | .vundef => ""
  | .vbool b => if b then "true" else "false"
  | .vnum n => toString n
  | .vnan => "NaN"
  | .vstr s => s
  | .varr xs => jsStringList xs
  | .vobj _ => "[object Object]"

end

/-- Structural (kernel-computable) counterparts of the string primitives the
source uses; each mirrors the JS behaviour on the inputs the module feeds it. -/
def strLower (s : String) : String := ⟨s.data.map Char.toLower⟩

def strTrim (s : String) : String :=
  ⟨((s.data.dropWhile Char.isWhitespace).reverse.dropWhile Char.isWhitespace).reverse⟩

def strTake (n : Nat) (s : String) : String := ⟨s.data.take n⟩

def strStartsWith (s p : String) : Bool := p.data.isPrefixOf s.data

def strEndsWith (s p : String) : Bool := p.data.reverse.isPrefixOf s.data.reverse

def strDrop (s : String) (n : Nat) : String := ⟨s.data.drop n⟩

def strDropRight (s : String) (n : Nat) : String := ⟨s.data.take (s.data.length - n)⟩

def strIntercalate (sep : String) : List String → String
  | [] => ""
  | x :: xs => xs.foldl (fun acc y => acc ++ sep ++ y) x

/-- Fuel-indexed splitter behind strSplitOn (the fuel bounds the input
length, so it never runs out on the initial call). -/
def splitOnFuel (sep : List Char) : Nat → List Char → List Char → List (List Char)
  | 0, rest, acc => [acc.reverse ++ rest]
  | _ + 1, [], acc => [acc.reverse]
  | fuel + 1, c :: rest, acc =>
    if sep.isPrefixOf (c :: rest) then
      acc.reverse :: splitOnFuel sep fuel (List.drop (sep.length - 1) rest) []
    else splitOnFuel sep fuel rest (c :: acc)

/-- JS s.split(sep) for a non-empty plain-string separator. -/
def strSplitOn (s sep : String) : List String :=
  (splitOnFuel sep.data (s.data.length + 1) s.data []).map (fun l => ⟨l⟩)

/-- Parse a non-empty all-digit character list. -/
def parseDigits (l : List Char) : Option Nat :=
  if l ≠ [] ∧ l.all Char.isDigit then
    some (l.foldl (fun n c => n * 10 + (c.toNat - 48)) 0)
  else none

/-- Parse an optionally signed integer literal. -/
def strToIntOpt (s : String) : Option Int :=
  match s.data with
  | '-' :: rest => (parseDigits rest).map (fun n => -(n : Int))
  | '+' :: rest => (parseDigits rest).map Int.ofNat
  | l => (parseDigits l).map Int.ofNat

/-- JS string-to-number conversion restricted to integer literals (the source
never feeds fractional literals to Number). -/
def strToNumber (s : String) : Val :=
  let t := strTrim s
  if t = "" then .vnum 0
  else
    match strToIntOpt t with
    | some n => .vnum n
    | none => .vnan

/-- JS Number(v) coercion; always yields a number (vnum or vnan). -/
def jsNumber : Val → Val
  | .vnull => .vnum 0
  | .vundef => .vnan
  | .vbool b => .vnum (if b then 1 else 0)
  | .vnum n => .vnum n
  | .vnan => .vnan
  | .vstr s => strToNumber s
  | .varr xs => strToNumber (jsString (.varr xs))
  | .vobj _ => .vnan

/-- JS Boolean(v) coercion. -/
def jsBool (v : Val) : Val := .vbool (truthy v)

/-- Does the character list occur contiguously inside the second list. -/
def charListInfix (sub : List Char) : List Char → Bool
  | [] => sub.isEmpty
  | c :: rest => sub.isPrefixOf (c :: rest) || charListInfix sub rest

/-- JS s.includes(sub). -/
def strIncludes (s sub : String) : Bool := charListInfix sub.toList s.toList

/-- Set-semantics field update used when modelling object-literal spread and
re-assignment (later writes override earlier ones, as in JS objects). -/
def objSet (fs : List (String × Val)) (k : String) (v : Val) : List (String × Val) :=
  if fs.any (fun p => p.1 = k) then
    fs.map (fun p => if p.1 = k then (k, v) else p)
  else fs ++ [(k, v)]

/-- JS v.length as a value (undefined when the receiver has no length). -/
def lenVal : Val → Val
  | .varr xs => .vnum xs.length
  | .vstr s => .vnum s.length
  | _ => Val.vundef

/-- JS v.length === 0. -/
def lenEqZero (v : Val) : Bool := lenVal v = .vnum 0

/-- JS v.length > 0 (false when length is undefined). -/
def lenPos : Val → Bool
  | .varr xs => 0 < xs.length
  | .vstr s => 0 < s.length
  | _ => false

/-- The element list a for-of loop iterates over (only reached on arrays in
the verified paths). -/
def elemsOf : Val → List Val
  | .varr xs => xs
  | _ => []

/-- Object.keys (arrays list their indices). -/
def keysOf : Val → List String
  | .vobj fs => fs.map Prod.fst
  | .varr xs => (List.range xs.length).map toString
  | _ => []

/-- Template-literal interpolation of (v || 'd'): String(v) when v is truthy,
otherwise the literal default. -/
def fmtOr (v : Val) (d : String) : String := jsString (jsOr v (.vstr d))

/-- Array.prototype.join (non-arrays have no join; such calls would throw in
the source and are unreached in the verified paths). -/
def jsJoin (v : Val) (sep : String) : String :=
  match v with
  | .varr xs => strIntercalate sep (xs.map jsStringElem)
  | _ => jsString v

-- ===========================================================================
-- Effect model: credential store, clock and HTTP transport as explicit inputs
-- ===========================================================================

/-- One HTTP request issued by the module (what the transport layer sees). -/
structure NetRequest where
  url : String
  method : String
  params : Val
  body : Val
deriving Repr, DecidableEq

/-- Outcome of one HTTP attempt as seen by the awaiting caller: the promise
either resolves with a status and parsed body, or rejects carrying an
optional response (absent on pure transport errors and timeouts) and an error
message.  Under the default axios configuration only 2xx responses resolve;
the one call made with a permissive validateStatus checks the status itself. -/
inductive HttpOutcome where
  | ok (status : Nat) (data : Val)
  | err (response : Option (Nat × Val)) (message : String)
deriving Repr, DecidableEq

/-- A user's decrypted n8n configuration record, as returned by getN8nConfig. -/
structure N8nConfig where
  apiKey : Val
  apiBaseUrl : Val
deriving Repr, DecidableEq

/-- Environment of one operation call: the resolved credential record (none
when the user record, its N8N sub-record or the stored secret is missing, or
decryption throws — getN8nConfig then returns null), the outcome of the k-th
HTTP attempt made by the operation, the ambient clock readings, and the
host-level default base URL (N8N.API_BASE_URL from the external config
module). -/
structure Env where
  config : Option N8nConfig
  net : Nat → HttpOutcome
  localeNow : String
  isoNow : String
  n8nApiBaseUrl : String
  dateLocale : Val → String

/-- process.env.N8N_API_BASE || 'https://api.n8n.io/v1' (modelled with the
environment variable unset). -/
def DEFAULT_N8N_API_BASE : String := "https://api.n8n.io/v1"

/-- Trim exactly one trailing slash: s.replace of a slash-at-end pattern. -/
def stripTrailSlash (s : String) : String :=
  if strEndsWith s "/" then strDropRight s 1 else s

/-- Trim exactly one leading slash: s.replace of a slash-at-start pattern. -/
def stripLeadSlash (s : String) : String :=
  if strStartsWith s "/" then strDrop s 1 else s

/-- The five HTTP verbs makeN8nRequest dispatches on. -/
def validMethod (m : String) : Bool :=
  m = "GET" || m = "POST" || m = "PUT" || m = "DELETE" || m = "PATCH"

/-- makeN8nRequest (n8n.js lines 23-71): builds the target URL, performs one
HTTP call and returns the parsed body, or null on any rejection; for an
unrecognized verb no call is made and reading response.data throws, which the
catch-all also converts to null.  The second component lists the requests
actually sent (params are only forwarded for GET/POST/PUT/PATCH, a JSON body
only for POST/PUT/PATCH). -/
def makeN8nRequest (endpoint : String) (apiKey params jsonData : Val)
    (method : String) (apiBaseUrl : Val) (outcome : HttpOutcome) :
    Val × List NetRequest :=
  let baseUrl := jsOr apiBaseUrl (.vstr DEFAULT_N8N_API_BASE)
  let cleanBaseUrl := stripTrailSlash (jsString baseUrl)
  let cleanEndpoint := stripLeadSlash endpoint
  let url := cleanBaseUrl ++ "/" ++ cleanEndpoint
  if validMethod method then
    let req : NetRequest :=
      { url := url
        method := method
        params := if method = "DELETE" then .vnull else params
        body := if method = "GET" || method = "DELETE" then .vnull else jsonData }
    match outcome with
    | .ok _ data => (data, [req])
    | .err _ _ => (.vnull, [req])
  else (.vnull, [])

-- ===========================================================================
-- Fixed user-facing messages
-- ===========================================================================

def msgUserIdRequired : String :=
  "Error: User ID is required. Please provide user authentication."

def msgApiKeyNotFound : String :=
  "Error: n8n API key not found. Please configure your n8n integration in your profile settings."

/-- The guard shared by every credentialed operation: a falsy user id yields
the configuration-required message, a missing or falsy API key the key-not-
found message; otherwise the body runs with the config record. -/
def withUserConfig (env : Env) (userId : Val)
    (body : N8nConfig → String × List NetRequest) : String × List NetRequest :=
  if !truthy userId then (msgUserIdRequired, [])
  else
    match env.config with
    | none => (msgApiKeyNotFound, [])
    | some config =>
      if !truthy config.apiKey then (msgApiKeyNotFound, [])
      else body config

instance : BEq Val := ⟨Val.beq⟩

instance : LawfulBEq Val where
  eq_of_beq h := (Val.beq_iff _ _).mp h
  rfl := (Val.beq_iff _ _).mpr rfl

-- ===========================================================================
-- Trigger detection (n8n.js lines 738-800)
-- ===========================================================================

/-- The triggerNodeTypes mapping from node type identifier to trigger kind. -/
def triggerNodeTypes : List (String × String) :=
  [("n8n-nodes-base.webhook", "webhook"),
   ("n8n-nodes-base.formTrigger", "form"),
   ("n8n-nodes-base.scheduleTrigger", "schedule"),
   ("n8n-nodes-base.chatTrigger", "chat"),
   ("n8n-nodes-base.manualTrigger", "manual")]

/-- Object.keys(triggerNodeTypes).includes(node.type); includes compares with
strict equality, so only string-typed node types can match. -/
def isTriggerNode (node : Val) : Bool :=
  match getField node "type" with
  | .vstr s => (triggerNodeTypes.map Prod.fst).contains s
  | _ => false

/-- triggerNodeTypes[triggerNode.type] || 'unknown' (object indexing coerces
the key to a string). -/
def triggerTypeOf (t : Val) : String :=
  (triggerNodeTypes.lookup (jsString t)).getD "unknown"

/-- detectWorkflowTrigger: classifies a workflow by the first node whose type
is a known trigger identifier and extracts trigger addressing data. -/
def detectWorkflowTrigger (workflowData : Val) : Val :=
  let nodes := getField workflowData "nodes"
  if !truthy nodes || !isArray nodes then
    .vobj [("type", .vstr "unknown"), ("node", .vnull), ("url", .vnull)]
  else
    match (elemsOf nodes).find? isTriggerNode with
    | none => .vobj [("type", .vstr "unknown"), ("node", .vnull), ("url", .vnull)]
    | some triggerNode =>
      let triggerType := triggerTypeOf (getField triggerNode "type")
      let params := getField triggerNode "parameters"
      let triggerPath :=
        if triggerType = "webhook" then
          jsOr (getField params "path")
            (jsOr (getField params "pathPrefix")
              (jsOr (getField (getField params "options") "path") (.vstr "")))
        else if triggerType = "form" then
          jsOr (getField params "formId")
            (jsOr (getField params "id")
              (jsOr (getField triggerNode "webhookId")
                (jsOr (getField (getField workflowData "settings") "formId")
                  (jsOr (getField (getField workflowData "staticData") "formId")
                    (jsOr (getField workflowData "webhookId")
                      (getField workflowData "id"))))))
        else .vnull
      let httpMethod :=
        if triggerType = "webhook" then
          jsOr (getField params "httpMethod")
            (jsOr (getField (getField params "options") "httpMethod") (.vstr "POST"))
        else .vstr "POST"
      .vobj [("type", .vstr triggerType), ("node", triggerNode),
             ("path", triggerPath), ("httpMethod", httpMethod)]

-- ===========================================================================
-- Form field extraction and default synthesis (n8n.js lines 552-731)
-- ===========================================================================

/-- The per-field record built from a formFields.values entry (lines 558-565);
requiredField defaults to true unless strictly equal to false. -/
def mapFormFieldEntry (field : Val) : Val :=
  .vobj [("fieldLabel", getField field "fieldLabel"),
         ("placeholder", getField field "placeholder"),
         ("requiredField", .vbool (getField field "requiredField" != .vbool false)),
         ("fieldType", jsOr (getField field "fieldType") (.vstr "text")),
         ("defaultValue", getField field "defaultValue"),
         ("options", jsOr (getField field "options")
                       (jsOr (getField field "values") (.varr [])))]

/-- The repeated guard (!formFields || formFields.length === 0). -/
def fieldsMissing (v : Val) : Bool := !truthy v || lenEqZero v

/-- Object spread {fieldLabel: key, ...props[key]}: later spread entries
override the base (primitive spreads contribute no enumerable fields). -/
def objSpread (base : List (String × Val)) (v : Val) : List (String × Val) :=
  match v with
  | .vobj fs => fs.foldl (fun acc kv => objSet acc kv.1 kv.2) base
  | _ => base

/-- Stage 2 of the field extraction (lines 568-575): a chain of alternative
parameter locations, consulted only when nothing was found yet. -/
def effStage2 (params ff : Val) : Val :=
  if fieldsMissing ff then
    jsOr (getField params "fields")
      (jsOr (getField (getField params "options") "fields")
        (jsOr (getField (getField params "schema") "properties")
          (jsOr (getField (getField (getField params "schema") "items") "properties")
            (.varr []))))
  else ff

/-- Stage 3 (lines 577-601): fields of the activeVersion trigger node. -/
def effStage3 (workflowData ff : Val) : Val :=
  if fieldsMissing ff && truthy (getField workflowData "activeVersion") then
    match (elemsOf (getField (getField workflowData "activeVersion") "nodes")).find?
        (fun node => getField node "type" == .vstr "n8n-nodes-base.formTrigger") with
    | some avt =>
      let avals := getField (getField (getField avt "parameters") "formFields") "values"
      if isArray avals then .varr ((elemsOf avals).map mapFormFieldEntry)
      else
        jsOr (getField (getField avt "parameters") "fields")
          (jsOr (getField (getField (getField avt "parameters") "options") "fields")
            (jsOr (getField (getField avt "parameters") "formFields")
              (jsOr (getField (getField (getField avt "parameters") "schema") "properties")
                (.varr []))))
    | none => ff
  else ff

/-- Stage 4 (lines 603-616): a JSON-schema properties object, its keys spread
into per-field records. -/
def effStage4 (params ff : Val) : Val :=
  if fieldsMissing ff && truthy params then
    if truthy (getField params "schema") && typeofObject (getField params "schema") then
      if truthy (getField (getField params "schema") "properties") then
        match getField (getField params "schema") "properties" with
        | .vobj props =>
          .varr (props.map (fun kv => .vobj (objSpread [("fieldLabel", .vstr kv.1)] kv.2)))
        | _ => ff
      else ff
    else ff
  else ff

/-- extractFormFields: tries parameters.formFields.values, then the stage-2
chain, then the activeVersion trigger node, then JSON-schema properties; a
non-array result collapses to []. -/
def extractFormFields (formTriggerNode : Val) (workflowData : Val) : List Val :=
  let params := getField formTriggerNode "parameters"
  let ff0 : Val :=
    let vals := getField (getField params "formFields") "values"
    if isArray vals then .varr ((elemsOf vals).map mapFormFieldEntry)
    else .varr []
  match effStage4 params (effStage3 workflowData (effStage2 params ff0)) with
  | .varr xs => xs
  | _ => []

/-- The heuristic value synthesized for one declared form field (the switch at
lines 651-721).  The clock readings stand for the new Date() calls. -/
def synthFieldValue (localeNow isoNow : String) (workflowData : Val) (field : Val) : Val :=
  let fieldType := jsOr (getField field "fieldType") (jsOr (getField field "type") (.vstr "text"))
  let fieldLabel := strLower (jsString (jsOr (getField field "fieldLabel")
    (jsOr (getField field "label")
      (jsOr (getField field "title")
        (jsOr (getField field "description") (.vstr ""))))))
  let placeholder := jsOr (getField field "placeholder") (.vstr "")
  if !isNullOrUndef (getField field "defaultValue") then getField field "defaultValue"
  else if !isNullOrUndef (getField field "default") then getField field "default"
  else
    let ftKey : Option String := match fieldType with
      | .vstr s => some (strLower s)
      | _ => none
    let options := getField field "options"
    let values := getField field "values"
    if ftKey = some "text" ∨ ftKey = some "string" then
      if strIncludes fieldLabel "name" || strIncludes fieldLabel "title" then
        if strIncludes fieldLabel "form" || strIncludes fieldLabel "google form"
            || strIncludes (strLower (jsString placeholder)) "form" then
          .vstr ("Form created via n8n MCP - " ++ localeNow)
        else if strIncludes fieldLabel "workflow" then
          jsOr (getField workflowData "name") (.vstr "n8n Workflow")
        else jsOr placeholder (.vstr "John Doe")
      else if strIncludes fieldLabel "email" then
        jsOr placeholder (.vstr "user@example.com")
      else if strIncludes fieldLabel "company" || strIncludes fieldLabel "organization" then
        jsOr placeholder (.vstr "Acme Corporation")
      else if strIncludes fieldLabel "message" || strIncludes fieldLabel "comment"
          || strIncludes fieldLabel "description" then
        jsOr placeholder (.vstr ("Automated submission from n8n MCP integration for workflow: "
          ++ fmtOr (getField workflowData "name") "workflow"))
      else if strIncludes fieldLabel "subject" || strIncludes fieldLabel "topic" then
        jsOr placeholder (.vstr ("Form Submission - " ++ fmtOr (getField workflowData "name") "n8n Workflow"))
      else
        jsOr placeholder
          (if strIncludes fieldLabel "name" then .vstr "Sample Name" else .vstr "Sample text")
    else if ftKey = some "textarea" then
      jsOr placeholder (.vstr ("Automated form submission from n8n MCP integration.\nWorkflow: "
        ++ fmtOr (getField workflowData "name") "Unknown" ++ "\nTimestamp: " ++ isoNow))
    else if ftKey = some "email" then jsOr placeholder (.vstr "user@example.com")
    else if ftKey = some "number" ∨ ftKey = some "integer" then
      jsOr (getField field "min") (.vnum 1)
    else if ftKey = some "boolean" ∨ ftKey = some "checkbox" then .vbool true
    else if ftKey = some "date" then .vstr ((strSplitOn isoNow "T").headD "")
    else if ftKey = some "select" ∨ ftKey = some "dropdown" then
      if truthy options && isArray options && lenPos options then
        jsOr (getField (getIndex options 0) "value")
          (jsOr (getField (getIndex options 0) "label") (getIndex options 0))
      else if truthy values && isArray values && lenPos values then
        jsOr (getField (getIndex values 0) "value")
          (jsOr (getField (getIndex values 0) "label") (getIndex values 0))
      else jsOr placeholder (.vstr "")
    else if ftKey = some "multiselect" then
      if truthy options && lenPos options then
        .varr [jsOr (getField (getIndex options 0) "value") (getIndex options 0)]
      else if truthy values && lenPos values then
        .varr [jsOr (getField (getIndex values 0) "value") (getIndex values 0)]
      else .varr []
    else jsOr placeholder (.vstr "Default value")

/-- generateDefaultFormData: one positional key field-i per declared field,
or the two-key fallback payload when no fields are declared. -/
def generateDefaultFormData (localeNow isoNow : String)
    (formTriggerNode workflowData : Val) : List (String × Val) :=
  let formFields := extractFormFields formTriggerNode workflowData
  if 0 < formFields.length then
    formFields.enum.foldl (fun acc p =>
      objSet acc ("field-" ++ toString p.1) (synthFieldValue localeNow isoNow workflowData p.2)) []
  else
    [("message", .vstr ("Form submitted via n8n MCP integration for workflow: "
        ++ fmtOr (getField workflowData "name") "workflow")),
     ("timestamp", .vstr isoNow)]

/-- The caller-input merge of the form execution path (lines 935-959): caller
values override synthesized defaults only when neither null, undefined nor
empty; a second pass restores any default whose slot is still empty.  The
Bool is the usedDefaults flag as last assigned. -/
def emptyish (v : Val) : Prop := v = Val.vnull ∨ v = Val.vundef ∨ v = Val.vstr ""

instance (v : Val) : Decidable (emptyish v) := by unfold emptyish; infer_instance

/-- One step of the caller-input loop: override the slot unless the provided
value is null, undefined or empty. -/
def mergeStep1 (inputData : Val) (st : List (String × Val) × Bool) (key : String) :
    List (String × Val) × Bool :=
  let value := getField inputData key
  if emptyish value then st
  else (objSet st.1 key value, false)

/-- One step of the default-restoring loop: refill the slot from the default
when it is absent or still empty. -/
def mergeStep2 (st : List (String × Val) × Bool) (kv : String × Val) :
    List (String × Val) × Bool :=
  match olookup st.1 kv.1 with
  | none => (objSet st.1 kv.1 kv.2, true)
  | some cur =>
    if emptyish cur then (objSet st.1 kv.1 kv.2, true)
    else st

def mergeFormData (defaultFormData : List (String × Val)) (inputData : Val) :
    List (String × Val) × Bool :=
  if truthy inputData && typeofObject inputData && 0 < (keysOf inputData).length then
    defaultFormData.foldl mergeStep2
      ((keysOf inputData).foldl (mergeStep1 inputData) (defaultFormData, true))
  else (defaultFormData, true)

-- ===========================================================================
-- Workflow creation: structural validation and node normalization
-- (n8n.js lines 210-348)
-- ===========================================================================

/-- JS typeof v === 'number' (NaN is a number). -/
def isNumberType : Val → Bool
  | .vnum _ => true
  | .vnan => true
  | _ => false

/-- JS typeof v === 'string'. -/
def isStringType : Val → Bool
  | .vstr _ => true
  | _ => false

/-- The invalid-node filter predicate of createN8nWorkflow (lines 229-245):
true means the node is rejected. -/
def nodeInvalid (node : Val) : Bool :=
  if !truthy node || !typeofObject node then true
  else if !truthy (getField node "type") || !truthy (getField node "name")
      || !truthy (getField node "position") || !isArray (getField node "position")
      || lenVal (getField node "position") != .vnum 2 then true
  else if !isNumberType (getIndex (getField node "position") 0)
      || !isNumberType (getIndex (getField node "position") 1) then true
  else false

/-- A conditionally present object field ([(k,v)] when the condition holds,
nothing otherwise). -/
def optChunk (c : Bool) (k : String) (v : Val) : List (String × Val) :=
  if c then [(k, v)] else []

/-- The node normalizer of createN8nWorkflow (lines 259-308): coerces the
required fields, defaults typeVersion to 1, and copies each optional field
only when its guard passes. -/
def normalizeNode (node : Val) : Val :=
  let position := getField node "position"
  .vobj (
    [("type", .vstr (jsString (getField node "type"))),
     ("name", .vstr (jsString (getField node "name"))),
     ("position", .varr [jsNumber (getIndex position 0), jsNumber (getIndex position 1)]),
     ("typeVersion",
       if getField node "typeVersion" ≠ .vundef then jsNumber (getField node "typeVersion")
       else .vnum 1)]
    ++ optChunk (!isNullOrUndef (getField node "parameters")) "parameters"
        (getField node "parameters")
    ++ optChunk (!isNullOrUndef (getField node "id")
          && strTrim (jsString (getField node "id")) != "") "id"
        (.vstr (jsString (getField node "id")))
    ++ optChunk (!isNullOrUndef (getField node "credentials")) "credentials"
        (getField node "credentials")
    ++ optChunk (getField node "disabled" != .vundef) "disabled"
        (jsBool (getField node "disabled"))
    ++ optChunk (!isNullOrUndef (getField node "notes")) "notes"
        (.vstr (jsString (getField node "notes")))
    ++ optChunk (getField node "notesInFlow" != .vundef) "notesInFlow"
        (jsBool (getField node "notesInFlow"))
    ++ optChunk (!isNullOrUndef (getField node "onError")) "onError"
        (.vstr (jsString (getField node "onError")))
    ++ optChunk (getField node "retryOnFail" != .vundef) "retryOnFail"
        (jsBool (getField node "retryOnFail"))
    ++ optChunk (getField node "maxTries" != .vundef) "maxTries"
        (jsNumber (getField node "maxTries"))
    ++ optChunk (getField node "waitBetweenTries" != .vundef) "waitBetweenTries"
        (jsNumber (getField node "waitBetweenTries"))
    ++ optChunk (!isNullOrUndef (getField node "webhookId")) "webhookId"
        (.vstr (jsString (getField node "webhookId")))
    ++ optChunk (getField node "executeOnce" != .vundef) "executeOnce"
        (jsBool (getField node "executeOnce"))
    ++ optChunk (getField node "alwaysOutputData" != .vundef) "alwaysOutputData"
        (jsBool (getField node "alwaysOutputData")))

-- ===========================================================================
-- Workflow operations
-- ===========================================================================

/-- listN8nWorkflows (lines 122-156). -/
def listN8nWorkflows (env : Env) (userId limit : Val) : String × List NetRequest :=
  withUserConfig env userId (fun config =>
    let params := Val.vobj [("limit", limit)]
    let r := makeN8nRequest "workflows" config.apiKey params .vnull "GET"
      config.apiBaseUrl (env.net 0)
    if !truthy r.1 then ("Failed to get workflows", r.2)
    else
      let workflows := jsOr (getField r.1 "data") (.varr [])
      if lenEqZero workflows then ("No workflows found", r.2)
      else
        let text := (elemsOf workflows).foldl (fun acc w =>
          let tags := if truthy (getField w "tags") then jsJoin (getField w "tags") ", "
                      else "No tags"
          acc ++ "• **" ++ fmtOr (getField w "name") "No name" ++ "**\n"
              ++ "  ID: " ++ fmtOr (getField w "id") "unknown" ++ "\n"
              ++ "  Active: " ++ jsString (jsOr (getField w "active") (.vbool false)) ++ "\n"
              ++ "  Created: " ++ fmtOr (getField w "createdAt") "unknown" ++ "\n"
              ++ "  Updated: " ++ fmtOr (getField w "updatedAt") "unknown" ++ "\n"
              ++ "  Tags: " ++ tags ++ "\n\n")
          ("Found " ++ jsString (lenVal workflows) ++ " workflows:\n\n")
        (text, r.2))

/-- getN8nWorkflow (lines 164-194). -/
def getN8nWorkflow (env : Env) (userId workflowId : Val) : String × List NetRequest :=
  withUserConfig env userId (fun config =>
    let r := makeN8nRequest ("workflows/" ++ jsString workflowId) config.apiKey
      .vnull .vnull "GET" config.apiBaseUrl (env.net 0)
    if !truthy r.1 then ("Failed to get workflow: " ++ jsString workflowId, r.2)
    else
      let data := r.1
      let tags := if truthy (getField data "tags") then jsJoin (getField data "tags") ", "
                  else "No tags"
      let nodeCount := if truthy (getField data "nodes") then lenVal (getField data "nodes")
                       else .vnum 0
      let connectionCount := if truthy (getField data "connections") then
                               Val.vnum (keysOf (getField data "connections")).length
                             else .vnum 0
      ("**Workflow Details:**\n\n"
        ++ "• **ID:** " ++ fmtOr (getField data "id") "unknown" ++ "\n"
        ++ "• **Name:** " ++ fmtOr (getField data "name") "No name" ++ "\n"
        ++ "• **Active:** " ++ jsString (jsOr (getField data "active") (.vbool false)) ++ "\n"
        ++ "• **Created:** " ++ fmtOr (getField data "createdAt") "unknown" ++ "\n"
        ++ "• **Updated:** " ++ fmtOr (getField data "updatedAt") "unknown" ++ "\n"
        ++ "• **Tags:** " ++ tags ++ "\n"
        ++ "• **Nodes:** " ++ jsString nodeCount ++ " nodes\n"
        ++ "• **Connections:** " ++ jsString connectionCount ++ " connections\n", r.2))

/-- createN8nWorkflow (lines 210-348). -/
def createN8nWorkflow (env : Env)
    (userId name nodes connections settings staticData shared : Val) :
    String × List NetRequest :=
  withUserConfig env userId (fun config =>
    if !truthy name || !isStringType name || (strTrim (jsString name)).length = 0 then
      ("Error: Workflow name is required and must be a non-empty string.", [])
    else if !truthy nodes || !isArray nodes || lenEqZero nodes then
      ("Error: At least one node is required. Provide an array of workflow nodes.", [])
    else
      let invalidNodes := (elemsOf nodes).filter nodeInvalid
      if 0 < invalidNodes.length then
        ("Error: Invalid node structure. Each node must have: type, name, and position [x, y] (with numeric values). Found "
          ++ toString invalidNodes.length ++ " invalid node(s).", [])
      else
        let workflowData := Val.vobj (
          [("name", .vstr (strTrim (jsString name))),
           ("nodes", .varr ((elemsOf nodes).map normalizeNode)),
           ("connections", jsOr connections (.vobj [])),
           ("settings", jsOr settings (.vobj []))]
          ++ optChunk (!isNullOrUndef staticData) "staticData" staticData
          ++ optChunk (truthy shared && isArray shared && lenPos shared) "shared" shared)
        let r := makeN8nRequest "workflows" config.apiKey .vnull workflowData "POST"
          config.apiBaseUrl (env.net 0)
        if !truthy r.1 then
          ("Failed to create workflow: " ++ jsString name
            ++ ". Please check the workflow structure and ensure all required fields are provided.",
           r.2)
        else
          let data := r.1
          let base := "**Created Workflow:**\n\n"
            ++ "• **ID:** " ++ fmtOr (getField data "id") "unknown" ++ "\n"
            ++ "• **Name:** " ++ fmtOr (getField data "name") "No name" ++ "\n"
            ++ "• **Active:** " ++ jsString (jsOr (getField data "active") (.vbool false)) ++ "\n"
            ++ "• **Nodes:** "
            ++ jsString (if truthy (getField data "nodes") then lenVal (getField data "nodes")
                         else lenVal nodes) ++ " node(s)\n"
            ++ "• **Created:** "
            ++ (if truthy (getField data "createdAt") then env.dateLocale (getField data "createdAt")
                else "unknown") ++ "\n"
          let withDescr := if truthy (getField data "description") then
              base ++ "• **Description:** " ++ jsString (getField data "description") ++ "\n"
            else base
          let tags := getField data "tags"
          let withTags := if truthy tags && isArray tags && lenPos tags then
              withDescr ++ "• **Tags:** "
                ++ jsJoin (.varr ((elemsOf tags).map (fun tag =>
                     jsOr (getField tag "name") (jsOr (getField tag "id") tag)))) ", " ++ "\n"
            else withDescr
          (withTags, r.2))

/-- updateN8nWorkflow (lines 360-388): only arguments that are not strictly
null enter the PUT payload. -/
def updateN8nWorkflow (env : Env)
    (userId workflowId name nodes connections active : Val) : String × List NetRequest :=
  withUserConfig env userId (fun config =>
    let updateData := Val.vobj (
      optChunk (name != .vnull) "name" name
      ++ optChunk (nodes != .vnull) "nodes" nodes
      ++ optChunk (connections != .vnull) "connections" connections
      ++ optChunk (active != .vnull) "active" active)
    let r := makeN8nRequest ("workflows/" ++ jsString workflowId) config.apiKey
      .vnull updateData "PUT" config.apiBaseUrl (env.net 0)
    if !truthy r.1 then ("Failed to update workflow: " ++ jsString workflowId, r.2)
    else
      ("**Updated Workflow:**\n\n"
        ++ "• **ID:** " ++ fmtOr (getField r.1 "id") "unknown" ++ "\n"
        ++ "• **Name:** " ++ fmtOr (getField r.1 "name") "No name" ++ "\n"
        ++ "• **Active:** " ++ jsString (jsOr (getField r.1 "active") (.vbool false)) ++ "\n"
        ++ "• **Updated:** " ++ fmtOr (getField r.1 "updatedAt") "unknown" ++ "\n", r.2))

/-- deleteN8nWorkflow (lines 396-412); note the strict null comparison. -/
def deleteN8nWorkflow (env : Env) (userId workflowId : Val) : String × List NetRequest :=
  withUserConfig env userId (fun config =>
    let r := makeN8nRequest ("workflows/" ++ jsString workflowId) config.apiKey
      .vnull .vnull "DELETE" config.apiBaseUrl (env.net 0)
    if r.1 = Val.vnull then ("Failed to delete workflow: " ++ jsString workflowId, r.2)
    else ("Successfully deleted workflow: " ++ jsString workflowId, r.2))

/-- activateN8nWorkflow (lines 420-436). -/
def activateN8nWorkflow (env : Env) (userId workflowId : Val) : String × List NetRequest :=
  withUserConfig env userId (fun config =>
    let r := makeN8nRequest ("workflows/" ++ jsString workflowId ++ "/activate")
      config.apiKey .vnull .vnull "POST" config.apiBaseUrl (env.net 0)
    if !truthy r.1 then ("Failed to activate workflow: " ++ jsString workflowId, r.2)
    else ("Successfully activated workflow: " ++ jsString workflowId, r.2))

/-- deactivateN8nWorkflow (lines 444-460). -/
def deactivateN8nWorkflow (env : Env) (userId workflowId : Val) : String × List NetRequest :=
  withUserConfig env userId (fun config =>
    let r := makeN8nRequest ("workflows/" ++ jsString workflowId ++ "/deactivate")
      config.apiKey .vnull .vnull "POST" config.apiBaseUrl (env.net 0)
    if !truthy r.1 then ("Failed to deactivate workflow: " ++ jsString workflowId, r.2)
    else ("Successfully deactivated workflow: " ++ jsString workflowId, r.2))

-- ===========================================================================
-- Execution, credential, user, webhook and tag operations
-- ===========================================================================

/-- listN8nExecutions (lines 473-509). -/
def listN8nExecutions (env : Env) (userId workflowId limit : Val) : String × List NetRequest :=
  withUserConfig env userId (fun config =>
    let params := Val.vobj ([("limit", limit)]
      ++ optChunk (truthy workflowId) "workflowId" workflowId)
    let r := makeN8nRequest "executions" config.apiKey params .vnull "GET"
      config.apiBaseUrl (env.net 0)
    if !truthy r.1 then ("Failed to get executions", r.2)
    else
      let executions := jsOr (getField r.1 "data") (.varr [])
      if lenEqZero executions then ("No executions found", r.2)
      else
        let text := (elemsOf executions).foldl (fun acc e =>
          acc ++ "• **Execution ID:** " ++ fmtOr (getField e "id") "unknown" ++ "\n"
              ++ "  Workflow ID: " ++ fmtOr (getField e "workflowId") "unknown" ++ "\n"
              ++ "  Status: " ++ fmtOr (getField e "status") "unknown" ++ "\n"
              ++ "  Started: " ++ fmtOr (getField e "startedAt") "unknown" ++ "\n"
              ++ "  Finished: " ++ fmtOr (getField e "finishedAt") "unknown" ++ "\n"
              ++ "  Mode: " ++ fmtOr (getField e "mode") "unknown" ++ "\n\n")
          ("Found " ++ jsString (lenVal executions) ++ " executions:\n\n")
        (text, r.2))

/-- getN8nExecution (lines 517-544). -/
def getN8nExecution (env : Env) (userId executionId : Val) : String × List NetRequest :=
  withUserConfig env userId (fun config =>
    let r := makeN8nRequest ("executions/" ++ jsString executionId) config.apiKey
      .vnull .vnull "GET" config.apiBaseUrl (env.net 0)
    if !truthy r.1 then ("Failed to get execution: " ++ jsString executionId, r.2)
    else
      let data := r.1
      let dataEntries := if truthy (getField data "data") then
          Val.vnum (keysOf (getField data "data")).length
        else .vnum 0
      ("**Execution Details:**\n\n"
        ++ "• **Execution ID:** " ++ fmtOr (getField data "id") "unknown" ++ "\n"
        ++ "• **Workflow ID:** " ++ fmtOr (getField data "workflowId") "unknown" ++ "\n"
        ++ "• **Status:** " ++ fmtOr (getField data "status") "unknown" ++ "\n"
        ++ "• **Started:** " ++ fmtOr (getField data "startedAt") "unknown" ++ "\n"
        ++ "• **Finished:** " ++ fmtOr (getField data "finishedAt") "unknown" ++ "\n"
        ++ "• **Mode:** " ++ fmtOr (getField data "mode") "unknown" ++ "\n"
        ++ "• **Data:** " ++ jsString dataEntries ++ " data entries\n", r.2))

/-- listN8nCredentials (lines 1306-1336). -/
def listN8nCredentials (env : Env) (userId : Val) : String × List NetRequest :=
  withUserConfig env userId (fun config =>
    let r := makeN8nRequest "credentials" config.apiKey .vnull .vnull "GET"
      config.apiBaseUrl (env.net 0)
    if !truthy r.1 then ("Failed to get credentials", r.2)
    else
      let credentials := jsOr (getField r.1 "data") (.varr [])
      if lenEqZero credentials then ("No credentials found", r.2)
      else
        let text := (elemsOf credentials).foldl (fun acc c =>
          acc ++ "• **" ++ fmtOr (getField c "name") "No name" ++ "**\n"
              ++ "  ID: " ++ fmtOr (getField c "id") "unknown" ++ "\n"
              ++ "  Type: " ++ fmtOr (getField c "type") "unknown" ++ "\n"
              ++ "  Created: " ++ fmtOr (getField c "createdAt") "unknown" ++ "\n"
              ++ "  Updated: " ++ fmtOr (getField c "updatedAt") "unknown" ++ "\n\n")
          ("Found " ++ jsString (lenVal credentials) ++ " credentials:\n\n")
        (text, r.2))

/-- getN8nCredential (lines 1344-1367). -/
def getN8nCredential (env : Env) (userId credentialId : Val) : String × List NetRequest :=
  withUserConfig env userId (fun config =>
    let r := makeN8nRequest ("credentials/" ++ jsString credentialId) config.apiKey
      .vnull .vnull "GET" config.apiBaseUrl (env.net 0)
    if !truthy r.1 then ("Failed to get credential: " ++ jsString credentialId, r.2)
    else
      ("**Credential Details:**\n\n"
        ++ "• **ID:** " ++ fmtOr (getField r.1 "id") "unknown" ++ "\n"
        ++ "• **Name:** " ++ fmtOr (getField r.1 "name") "No name" ++ "\n"
        ++ "• **Type:** " ++ fmtOr (getField r.1 "type") "unknown" ++ "\n"
        ++ "• **Created:** " ++ fmtOr (getField r.1 "createdAt") "unknown" ++ "\n"
        ++ "• **Updated:** " ++ fmtOr (getField r.1 "updatedAt") "unknown" ++ "\n", r.2))

/-- getN8nUserInfo (lines 1378-1401). -/
def getN8nUserInfo (env : Env) (userId : Val) : String × List NetRequest :=
  withUserConfig env userId (fun config =>
    let r := makeN8nRequest "users/me" config.apiKey .vnull .vnull "GET"
      config.apiBaseUrl (env.net 0)
    if !truthy r.1 then ("Failed to get user info", r.2)
    else
      ("**User Information:**\n\n"
        ++ "• **ID:** " ++ fmtOr (getField r.1 "id") "unknown" ++ "\n"
        ++ "• **Email:** " ++ fmtOr (getField r.1 "email") "No email" ++ "\n"
        ++ "• **First Name:** " ++ fmtOr (getField r.1 "firstName") "No first name" ++ "\n"
        ++ "• **Last Name:** " ++ fmtOr (getField r.1 "lastName") "No last name" ++ "\n"
        ++ "• **Created:** " ++ fmtOr (getField r.1 "createdAt") "unknown" ++ "\n", r.2))

/-- listN8nWebhooks (lines 1412-1442). -/
def listN8nWebhooks (env : Env) (userId : Val) : String × List NetRequest :=
  withUserConfig env userId (fun config =>
    let r := makeN8nRequest "webhooks" config.apiKey .vnull .vnull "GET"
      config.apiBaseUrl (env.net 0)
    if !truthy r.1 then ("Failed to get webhooks", r.2)
    else
      let webhooks := jsOr (getField r.1 "data") (.varr [])
      if lenEqZero webhooks then ("No webhooks found", r.2)
      else
        let text := (elemsOf webhooks).foldl (fun acc w =>
          acc ++ "• **Webhook ID:** " ++ fmtOr (getField w "id") "unknown" ++ "\n"
              ++ "  Path: " ++ fmtOr (getField w "path") "No path" ++ "\n"
              ++ "  Method: " ++ fmtOr (getField w "method") "unknown" ++ "\n"
              ++ "  Workflow ID: " ++ fmtOr (getField w "workflowId") "unknown" ++ "\n"
              ++ "  Active: " ++ jsString (jsOr (getField w "active") (.vbool false)) ++ "\n\n")
          ("Found " ++ jsString (lenVal webhooks) ++ " webhooks:\n\n")
        (text, r.2))

/-- listN8nTags (lines 1453-1482). -/
def listN8nTags (env : Env) (userId : Val) : String × List NetRequest :=
  withUserConfig env userId (fun config =>
    let r := makeN8nRequest "tags" config.apiKey .vnull .vnull "GET"
      config.apiBaseUrl (env.net 0)
    if !truthy r.1 then ("Failed to get tags", r.2)
    else
      let tags := jsOr (getField r.1 "data") (.varr [])
      if lenEqZero tags then ("No tags found", r.2)
      else
        let text := (elemsOf tags).foldl (fun acc t =>
          acc ++ "• **" ++ fmtOr (getField t "name") "No name" ++ "**\n"
              ++ "  ID: " ++ fmtOr (getField t "id") "unknown" ++ "\n"
              ++ "  Created: " ++ fmtOr (getField t "createdAt") "unknown" ++ "\n"
              ++ "  Updated: " ++ fmtOr (getField t "updatedAt") "unknown" ++ "\n\n")
          ("Found " ++ jsString (lenVal tags) ++ " tags:\n\n")
        (text, r.2))

/-- createN8nTag (lines 1490-1512). -/
def createN8nTag (env : Env) (userId name : Val) : String × List NetRequest :=
  withUserConfig env userId (fun config =>
    let tagData := Val.vobj [("name", name)]
    let r := makeN8nRequest "tags" config.apiKey .vnull tagData "POST"
      config.apiBaseUrl (env.net 0)
    if !truthy r.1 then ("Failed to create tag: " ++ jsString name, r.2)
    else
      ("**Created Tag:**\n\n"
        ++ "• **ID:** " ++ fmtOr (getField r.1 "id") "unknown" ++ "\n"
        ++ "• **Name:** " ++ fmtOr (getField r.1 "name") "No name" ++ "\n"
        ++ "• **Created:** " ++ fmtOr (getField r.1 "createdAt") "unknown" ++ "\n", r.2))

-- ===========================================================================
-- Template search (public catalog, unauthenticated) and workflow validation
-- ===========================================================================

/-- Math.min over JS values. -/
def jsMin (a b : Val) : Val :=
  match jsNumber a, jsNumber b with
  | .vnum x, .vnum y => .vnum (min x y)
  | _, _ => .vnan

/-- searchN8nTemplates (lines 1825-1866): takes no user id; the requested
limit is capped at 50 and defaults to 20 when the argument is absent
(JS default parameter, i.e. when it is undefined). -/
def searchN8nTemplates (env : Env) (query limitArg : Val) : String × List NetRequest :=
  if !truthy query then ("Error: Search query is required.", [])
  else
    let limit := match limitArg with
      | .vundef => Val.vnum 20
      | v => v
    let params := Val.vobj [("search", query), ("limit", jsMin limit (.vnum 50))]
    let req : NetRequest :=
      { url := "https://api.n8n.io/api/v1/workflows/templates"
        method := "GET", params := params, body := .vnull }
    match env.net 0 with
    | .err _ message =>
      ("Error searching templates: " ++ message
        ++ ". The n8n templates API may be temporarily unavailable.", [req])
    | .ok _ data =>
      let templates := jsOr (getField data "data") (jsOr data (.varr []))
      if lenEqZero templates then
        ("No templates found matching \"" ++ jsString query
          ++ "\". Try different keywords like \"slack\", \"gmail\", \"automation\", etc.", [req])
      else
        let text := (elemsOf templates).enum.foldl (fun acc p =>
          let t := p.2
          let descr := jsString (getField t "description")
          acc ++ toString (p.1 + 1) ++ ". **" ++ fmtOr (getField t "name") "Untitled Template" ++ "**\n"
              ++ "   ID: " ++ fmtOr (getField t "id") "unknown" ++ "\n"
              ++ (if truthy (getField t "description") then
                  "   Description: " ++ strTake 150 descr
                    ++ (if 150 < descr.length then "..." else "") ++ "\n" else "")
              ++ (if truthy (getField t "categories") && lenPos (getField t "categories") then
                  "   Categories: " ++ jsJoin (getField t "categories") ", " ++ "\n" else "")
              ++ (if truthy (getField t "totalViews") then
                  "   Views: " ++ jsString (getField t "totalViews") ++ "\n" else "")
              ++ "\n")
          ("Found " ++ jsString (lenVal templates) ++ " template(s) matching \""
            ++ jsString query ++ "\":\n\n")
        (text, [req])

/-- validateN8nWorkflow (lines 2006-2083): the user id is optional here —
validation is purely local and never issues a network call; a present user id
with a configured key only adds an informational warning. -/
def validateN8nWorkflow (env : Env) (userId workflow : Val) : String × List NetRequest :=
  if !truthy workflow || !typeofObject workflow then
    ("Error: Workflow configuration is required and must be an object.", [])
  else
    let nameErrs : List String :=
      if !truthy (getField workflow "name") then ["Workflow must have a \"name\" property"]
      else []
    let nodes := getField workflow "nodes"
    let nodesResult : List String × List String :=
      if !truthy nodes || !isArray nodes then (["Workflow must have a \"nodes\" array"], [])
      else
        let base : List String :=
          if lenEqZero nodes then ["Workflow must have at least one node"] else []
        (elemsOf nodes).enum.foldl (fun st p =>
          let n := toString (p.1 + 1)
          (st.1 ++ (if !truthy (getField p.2 "type") then
              ["Node " ++ n ++ " is missing \"type\" property"] else []),
           st.2 ++ (if !truthy (getField p.2 "name") then
              ["Node " ++ n ++ " should have a \"name\" property"] else [])
            ++ (if !truthy (getField p.2 "position") || !isArray (getField p.2 "position") then
              ["Node " ++ n ++ " should have a \"position\" property [x, y]"] else [])))
          (base, [])
    let errors := nameErrs ++ nodesResult.1
    let warns := nodesResult.2
      ++ (if !truthy (getField workflow "connections")
            || !typeofObject (getField workflow "connections") then
          ["Workflow should have a \"connections\" object (can be empty \x7b\x7d)"] else [])
      ++ (if truthy userId then
          (match env.config with
           | some c =>
             if truthy c.apiKey then
               ["API validation available - workflow structure looks valid for API submission"]
             else []
           | none => []) else [])
    let hdr := "**Workflow Validation Result:**\n\n"
      ++ "• **Workflow Name:** " ++ fmtOr (getField workflow "name") "Not provided" ++ "\n"
      ++ "• **Nodes:** " ++ jsString (jsOr (lenVal nodes) (.vnum 0)) ++ "\n"
      ++ "• **Connections:** "
      ++ jsString (if truthy (getField workflow "connections") then
            Val.vnum (keysOf (getField workflow "connections")).length else .vnum 0) ++ "\n\n"
    let body :=
      if errors.length = 0 && warns.length = 0 then
        "✅ **Validation Passed**\nThe workflow configuration appears to be valid and ready for creation."
      else
        (if 0 < errors.length then
          "❌ **Errors (" ++ toString errors.length ++ "):**\n"
            ++ String.join (errors.map (fun e => "  • " ++ e ++ "\n")) ++ "\n"
         else "")
        ++ (if 0 < warns.length then
          "⚠️ **Warnings (" ++ toString warns.length ++ "):**\n"
            ++ String.join (warns.map (fun w => "  • " ++ w ++ "\n"))
         else "")
    (hdr ++ body, [])

-- ===========================================================================
-- Workflow execution dispatcher (n8n.js lines 809-1295)
-- ===========================================================================

mutual

/-- JSON.stringify, modelled without string escaping or the optional
indentation argument (the formatted body only appears verbatim inside
human-readable text blocks no verified property inspects). -/
def jsonStringify : Val → String
  | .vnull => "null"
  | .vundef => "undefined"
  | .vbool b => if b then "true" else "false"
  | .vnum n => toString n
  | .vnan => "null"
  | .vstr s => "\"" ++ s ++ "\""
  | .varr xs => "[" ++ jsonStringifyList xs ++ "]"
  | .vobj fs => "\x7b" ++ jsonStringifyFields fs ++ "\x7d"

def jsonStringifyList : List Val → String
  | [] => ""
  | [x] => jsonStringify x
  | x :: xs => jsonStringify x ++ "," ++ jsonStringifyList xs

def jsonStringifyFields : List (String × Val) → String
  | [] => ""
  | [(k, v)] => "\"" ++ k ++ "\":" ++ jsonStringify v
  | (k, v) :: fs => "\"" ++ k ++ "\":" ++ jsonStringify v ++ "," ++ jsonStringifyFields fs

end

/-- The fields of an object value. -/
def objFieldsOf : Val → List (String × Val)
  | .vobj fs => fs
  | _ => []

/-- scheme://host extraction performed by new URL(s): the origin, or none
when the string is not an absolute URL (the constructor then throws).
Scheme normalization beyond this split is not modelled. -/
def parseUrlOrigin (s : String) : Option String :=
  match strSplitOn s "://" with
  | [scheme, rest] =>
    if scheme = "" then none
    else
      let host := (strSplitOn rest "/").headD ""
      if host = "" then none else some (scheme ++ "://" ++ host)
  | _ => none

/-- s.replace(pat, '') for a plain-string pattern: removes the first
occurrence only. -/
def replaceFirst (s pat : String) : String :=
  match strSplitOn s pat with
  | [] => s
  | [x] => x
  | x :: rest => x ++ strIntercalate pat rest

/-- The dispatcher's host base URL (lines 862-872 and 1176-1185): origin of
the per-user API base URL, a string-surgery fallback when URL parsing throws,
or the configured default host. -/
def execBaseUrl (env : Env) (config : N8nConfig) : String :=
  if truthy config.apiBaseUrl then
    match parseUrlOrigin (jsString config.apiBaseUrl) with
    | some origin => origin
    | none => stripTrailSlash (replaceFirst (jsString config.apiBaseUrl) "/api/v1")
  else env.n8nApiBaseUrl

/-- error.response?.data?.message || error.message || 'Unknown error'. -/
def errFirstMsg (resp : Option (Nat × Val)) (message : String) : String :=
  let m := match resp with
    | some p => getField p.2 "message"
    | none => .vundef
  jsString (jsOr m (jsOr (.vstr message) (.vstr "Unknown error")))

/-- The runPayload.workflowData object shared by the form and run-endpoint
dispatch paths (lines 971-983 and 1190-1202). -/
def runWorkflowData (workflowData : Val) : Val :=
  .vobj [("name", getField workflowData "name"),
         ("nodes", jsOr (getField workflowData "nodes") (.varr [])),
         ("connections", jsOr (getField workflowData "connections") (.vobj [])),
         ("settings", jsOr (getField workflowData "settings") (.vobj [])),
         ("active", getField workflowData "active"),
         ("pinData", jsOr (getField workflowData "pinData") (.vobj [])),
         ("tags", jsOr (getField workflowData "tags") (.varr [])),
         ("versionId", jsOr (getField workflowData "versionId")
             (getField workflowData "activeVersionId")),
         ("meta", jsOr (getField workflowData "meta") (.vobj [])),
         ("id", getField workflowData "id")]

/-- The catch-all error text of the form dispatch path (lines 1130-1168). -/
def formErrorResult (workflowData : Val) (formUrl : String) (usedDefaults : Bool)
    (formData : List (String × Val)) (errorMessage : String)
    (errorData : Option Val) (statusCode : Option Nat) : String :=
  "Error triggering form workflow: " ++ errorMessage ++ "\n\n"
  ++ (if strIncludes errorMessage "could not be started"
        || strIncludes errorMessage "Workflow Form Error" then
      "**Possible Causes:**\n"
      ++ "• The workflow may not be published (form workflows must be published, not just active)\n"
      ++ "• The workflow may have errors in its configuration\n"
      ++ "• The form trigger may not be properly configured\n"
      ++ "• Workflow Status: "
      ++ (if truthy (getField workflowData "active") then "Active" else "Inactive") ++ "\n"
      ++ "• Published Version ID: "
      ++ fmtOr (getField workflowData "activeVersionId") "None (workflow not published)" ++ "\n"
      ++ "• Form URL: " ++ formUrl ++ "\n\n"
      ++ (if !truthy (getField workflowData "activeVersionId") then
          "**Action Required:** Please publish the workflow in n8n. Form workflows must be published to accept submissions.\n\n"
         else "")
     else "")
  ++ (if usedDefaults then
      "**Form Data Sent:**\n```json\n" ++ jsonStringify (.vobj formData) ++ "\n```\n\n"
     else "")
  ++ (match errorData with
      | some d => if truthy d then
          "\n**Error Details:**\n```json\n" ++ jsonStringify d ++ "\n```\n" else ""
      | none => "")
  ++ (match statusCode with
      | some s => "\n**HTTP Status:** " ++ toString s ++ "\n"
      | none => "")

/-- The diagnostic message thrown when the multipart form submission is
rejected by the server with a workflow-start error (lines 1085-1098). -/
def formDiagnosticMsg (workflowData : Val) (workflowId : Val) (trigger : Val)
    (formUrl : String) (errorMsg : String) : String :=
  "n8n form submission failed: " ++ errorMsg ++ "\n\n"
  ++ "**Diagnostics:**\n"
  ++ "• Workflow: " ++ jsString (jsOr (getField workflowData "name") workflowId) ++ "\n"
  ++ "• Active: " ++ jsString (getField workflowData "active") ++ "\n"
  ++ "• Published: " ++ (if truthy (getField workflowData "activeVersionId") then "true" else "false") ++ "\n"
  ++ "• Version ID: " ++ fmtOr (getField workflowData "activeVersionId") "None" ++ "\n"
  ++ "• Form ID: " ++ fmtOr (getField trigger "path") "None" ++ "\n"
  ++ "• Form URL: " ++ formUrl ++ "\n\n"
  ++ "**Possible Solutions:**\n"
  ++ "1. Republish the workflow in n8n (even if it\x27s already active)\n"
  ++ "2. Check for errors in the workflow nodes\n"
  ++ "3. Verify the form trigger is properly configured\n"
  ++ "4. Ensure the workflow execution settings allow form submissions\n"

/-- executeN8nWorkflow (lines 809-1295): fetches the workflow, rejects
inactive workflows, detects the trigger and dispatches on its type, with one
fallback attempt in the form and run-endpoint paths.  The request list
records every HTTP call in order (the initial fetch first). -/
def executeN8nWorkflow (env : Env) (userId workflowId inputData : Val) :
    String × List NetRequest :=
  withUserConfig env userId (fun config =>
    let fetch := makeN8nRequest ("workflows/" ++ jsString workflowId) config.apiKey
      .vnull .vnull "GET" config.apiBaseUrl (env.net 0)
    let workflowData := fetch.1
    let wfName := jsString (jsOr (getField workflowData "name") workflowId)
    if !truthy workflowData then
      ("Error: Failed to retrieve workflow " ++ jsString workflowId
        ++ ". Please check if the workflow ID is correct.", fetch.2)
    else if !truthy (getField workflowData "active") then
      ("Error: Workflow \"" ++ wfName
        ++ "\" is not active. Please activate the workflow first using the activate_n8n_workflow tool.",
       fetch.2)
    else
      let trigger0 := detectWorkflowTrigger workflowData
      let triggerType := getField trigger0 "type"
      if triggerType == .vstr "form" && !truthy (getField workflowData "activeVersionId") then
        ("Error: Workflow \"" ++ wfName
          ++ "\" is active but not published. Form workflows must be published to accept form submissions. Please publish the workflow in n8n.",
         fetch.2)
      else if triggerType == .vstr "form" && !truthy (getField trigger0 "node") then
        ("Error: Workflow \"" ++ wfName
          ++ "\" has a form trigger but the trigger node configuration could not be found. Please check the workflow configuration in n8n.",
         fetch.2)
      else if triggerType == .vstr "form" && !truthy (getField trigger0 "path") then
        ("Error: Workflow \"" ++ wfName
          ++ "\" form trigger is missing a form ID/path. Please check the form trigger configuration in n8n.",
         fetch.2)
      else
        let trigger :=
          if triggerType == .vstr "form" && truthy (getField workflowData "activeVersion") then
            match (elemsOf (getField (getField workflowData "activeVersion") "nodes")).find?
                (fun n => getField n "type" == .vstr "n8n-nodes-base.formTrigger") with
            | some avt =>
              if fieldsMissing (getField (getField (getField trigger0 "node") "parameters") "fields") then
                Val.vobj (objSet (objFieldsOf trigger0) "node" avt)
              else trigger0
            | none => trigger0
          else trigger0
        let baseUrl := execBaseUrl env config
        if triggerType == .vstr "webhook" && truthy (getField trigger "path") then
          let webhookUrl := baseUrl ++ "/webhook/" ++ jsString (getField trigger "path")
          let httpMethod := jsOr (getField trigger "httpMethod") (.vstr "POST")
          let requestBody := if truthy inputData then
              (if isArray inputData then inputData else .varr [inputData])
            else .vnull
          let isGet := httpMethod == Val.vstr "GET"
          let req : NetRequest :=
            { url := webhookUrl, method := if isGet then "GET" else "POST"
              params := if isGet then requestBody else .vnull
              body := if isGet then .vnull else requestBody }
          match env.net 1 with
          | .ok status data =>
            ("**Webhook Workflow Triggered Successfully:**\n\n"
              ++ "• **Workflow:** " ++ wfName ++ "\n"
              ++ "• **Trigger Type:** Webhook\n"
              ++ "• **Webhook URL:** " ++ webhookUrl ++ "\n"
              ++ "• **Method:** " ++ jsString httpMethod ++ "\n"
              ++ "• **Status Code:** " ++ toString status ++ "\n"
              ++ (if truthy data then
                  "• **Response:** " ++ jsonStringify data ++ "\n" else ""),
             fetch.2 ++ [req])
          | .err resp message =>
            ("Error triggering webhook workflow: " ++ errFirstMsg resp message,
             fetch.2 ++ [req])
        else if triggerType == .vstr "form" && truthy (getField trigger "path") then
          let formUrl := baseUrl ++ "/form/" ++ jsString (getField trigger "path")
          let merged := mergeFormData
            (generateDefaultFormData env.localeNow env.isoNow (getField trigger "node") workflowData)
            inputData
          let formData := merged.1
          let usedDefaults := merged.2
          let restRunUrl := baseUrl ++ "/rest/workflows/" ++ jsString workflowId ++ "/run"
          let runPayload := Val.vobj
            [("workflowData", runWorkflowData workflowData),
             ("startNodes", .varr []),
             ("triggerToStartFrom", Val.vobj
               [("name", jsOr (getField (getField trigger "node") "name")
                   (.vstr "On form submission"))]),
             ("data", .varr [.vobj formData])]
          let runReq : NetRequest :=
            { url := restRunUrl, method := "POST", params := .vnull, body := runPayload }
          let formDataText :=
            "• **Form Data Sent:**\n```json\n" ++ jsonStringify (.vobj formData) ++ "\n```\n"
          match env.net 1 with
          | .ok 200 runData =>
            ("**Form Workflow Executed Successfully:**\n\n"
              ++ "• **Workflow:** " ++ wfName ++ "\n"
              ++ "• **Trigger Type:** Form\n"
              ++ "• **Execution Method:** /rest/workflows/\x7bid\x7d/run endpoint\n"
              ++ "• **Status Code:** 200\n"
              ++ (if usedDefaults then
                  "• **Note:** Automatically generated intelligent form data based on form fields\n"
                  ++ formDataText
                 else formDataText)
              ++ (if truthy runData then
                  "• **Response:**\n```json\n" ++ jsonStringify runData ++ "\n```\n" else ""),
             fetch.2 ++ [runReq])
          | _ =>
            let multipartBody := Val.vobj (formData.filterMap (fun kv =>
              if isNullOrUndef kv.2 then none
              else if isArray kv.2 || typeofObject kv.2 then
                some (kv.1, Val.vstr (jsonStringify kv.2))
              else some (kv.1, Val.vstr (jsString kv.2))))
            let formReq : NetRequest :=
              { url := formUrl, method := "POST", params := .vnull, body := multipartBody }
            let calls := fetch.2 ++ [runReq, formReq]
            match env.net 2 with
            | .ok status fdata =>
              if 400 ≤ status then
                let errorMsg := jsString (jsOr (getField fdata "message")
                  (jsOr (getField fdata "error") (.vstr ("HTTP " ++ toString status))))
                let thrownMsg :=
                  if strIncludes errorMsg "could not be started"
                      || strIncludes errorMsg "Workflow Form Error" then
                    formDiagnosticMsg workflowData workflowId trigger formUrl errorMsg
                  else "Form submission returned " ++ toString status ++ ": " ++ errorMsg
                (formErrorResult workflowData formUrl usedDefaults formData
                  (jsString (jsOr (.vstr thrownMsg) (.vstr "Unknown error"))) none none, calls)
              else
                ("**Form Workflow Triggered Successfully:**\n\n"
                  ++ "• **Workflow:** " ++ wfName ++ "\n"
                  ++ "• **Trigger Type:** Form\n"
                  ++ "• **Form URL:** " ++ formUrl ++ "\n"
                  ++ (if usedDefaults then
                      "• **Note:** Automatically generated intelligent form data based on form fields\n"
                      ++ formDataText
                     else formDataText)
                  ++ "• **Status Code:** " ++ toString status ++ "\n"
                  ++ (if truthy fdata then
                      "• **Response:** " ++ jsonStringify fdata ++ "\n" else ""),
                 calls)
            | .err resp message =>
              match resp with
              | some (500, d) =>
                let transformed := "n8n form submission failed: "
                  ++ fmtOr (getField d "message") "Unknown error"
                  ++ ". The workflow may need to be republished or there may be an issue with the form configuration."
                (formErrorResult workflowData formUrl usedDefaults formData
                  (jsString (jsOr (.vstr transformed) (.vstr "Unknown error"))) none none, calls)
              | some (s, d) =>
                (formErrorResult workflowData formUrl usedDefaults formData
                  (errFirstMsg (some (s, d)) message) (some d) (some s), calls)
              | none =>
                (formErrorResult workflowData formUrl usedDefaults formData
                  (errFirstMsg none message) none none, calls)
        else if triggerType == .vstr "schedule" || triggerType == .vstr "chat"
            || triggerType == .vstr "manual" then
          let baseUrl2 := execBaseUrl env config
          let restRunUrl := baseUrl2 ++ "/rest/workflows/" ++ jsString workflowId ++ "/run"
          let runPayload := Val.vobj (
            [("workflowData", runWorkflowData workflowData),
             ("startNodes", .varr [])]
            ++ optChunk (truthy (getField trigger "node")) "triggerToStartFrom"
                (Val.vobj [("name", jsOr (getField (getField trigger "node") "name")
                    (.vstr "Trigger"))])
            ++ (if truthy inputData then
                if triggerType == Val.vstr "chat" then
                  [("data", Val.varr [if isStringType inputData then
                      Val.vobj [("message", inputData), ("chatInput", inputData)]
                    else inputData])]
                else
                  [("data", if isArray inputData then inputData else Val.varr [inputData])]
              else if triggerType == Val.vstr "chat" then
                [("data", Val.varr [Val.vobj
                  [("message", .vstr "Workflow triggered via n8n MCP"),
                   ("chatInput", .vstr "Workflow triggered via n8n MCP")]])]
              else []))
          let runReq : NetRequest :=
            { url := restRunUrl, method := "POST", params := .vnull, body := runPayload }
          match env.net 1 with
          | .ok 200 runData =>
            ("**Workflow Execution Started:**\n\n"
              ++ "• **Workflow:** " ++ wfName ++ "\n"
              ++ "• **Trigger Type:** " ++ jsString triggerType ++ "\n"
              ++ "• **Execution Method:** /rest/workflows/\x7bid\x7d/run endpoint\n"
              ++ "• **Status Code:** 200\n"
              ++ (if truthy runData then
                  "• **Response:**\n```json\n" ++ jsonStringify runData ++ "\n```\n" else ""),
             fetch.2 ++ [runReq])
          | .ok status runData =>
            ("Error: Workflow execution returned status " ++ toString status
              ++ ". Response: " ++ jsonStringify runData, fetch.2 ++ [runReq])
          | .err _ _ =>
            let executionData := Val.vobj (
              optChunk (truthy (getField workflowData "activeVersionId")) "versionId"
                (getField workflowData "activeVersionId")
              ++ (if truthy inputData then
                  [("data", if isArray inputData then inputData else Val.varr [inputData])]
                 else []))
            let fb := makeN8nRequest ("workflows/" ++ jsString workflowId ++ "/execute")
              config.apiKey .vnull executionData "POST" config.apiBaseUrl (env.net 2)
            if !truthy fb.1 then
              ("Failed to execute workflow: " ++ jsString workflowId
                ++ ". Please ensure the workflow is active and has a valid version.",
               fetch.2 ++ [runReq] ++ fb.2)
            else
              ("**Workflow Execution Started:**\n\n"
                ++ "• **Workflow:** " ++ wfName ++ "\n"
                ++ "• **Trigger Type:** " ++ jsString triggerType ++ "\n"
                ++ "• **Execution ID:** " ++ fmtOr (getField fb.1 "id") "unknown" ++ "\n"
                ++ "• **Workflow ID:** " ++ jsString workflowId ++ "\n"
                ++ "• **Status:** " ++ fmtOr (getField fb.1 "status") "running" ++ "\n"
                ++ (if truthy (getField fb.1 "startedAt") then
                    "• **Started:** " ++ env.dateLocale (getField fb.1 "startedAt") ++ "\n" else "")
                ++ (if truthy (getField fb.1 "finishedAt") then
                    "• **Finished:** " ++ env.dateLocale (getField fb.1 "finishedAt") ++ "\n" else ""),
               fetch.2 ++ [runReq] ++ fb.2)
        else
          ("Error: Workflow \"" ++ wfName ++ "\" has an unsupported trigger type ("
            ++ jsString triggerType
            ++ "). Supported triggers: webhook, form, schedule, chat, manual.", fetch.2))

-- ===========================================================================
-- Concrete fixtures used by witnesses and counterexamples
-- ===========================================================================

/-- A form-trigger node with two declared text fields. -/
def cFormNode2 : Val := .vobj [("type", .vstr "n8n-nodes-base.formTrigger"),
  ("parameters", .vobj [("formFields", .vobj [("values", .varr
    [.vobj [("fieldLabel", .vstr "a"), ("fieldType", .vstr "text")],
     .vobj [("fieldLabel", .vstr "b"), ("fieldType", .vstr "text")]])])])]

/-- A form-trigger node with text, email and number fields and no
placeholders. -/
def cFormNode3 : Val := .vobj [("type", .vstr "n8n-nodes-base.formTrigger"),
  ("parameters", .vobj [("formFields", .vobj [("values", .varr
    [.vobj [("fieldLabel", .vstr "Your text"), ("fieldType", .vstr "text")],
     .vobj [("fieldLabel", .vstr "Contact"), ("fieldType", .vstr "email")],
     .vobj [("fieldLabel", .vstr "Age"), ("fieldType", .vstr "number")]])])])]

/-- A form-trigger node identical to the witness but whose email field
declares a placeholder without an @ character. -/
def cFormNodeBadPlaceholder : Val := .vobj [("type", .vstr "n8n-nodes-base.formTrigger"),
  ("parameters", .vobj [("formFields", .vobj [("values", .varr
    [.vobj [("fieldLabel", .vstr "a"), ("fieldType", .vstr "text")],
     .vobj [("fieldLabel", .vstr "b"), ("fieldType", .vstr "email"),
            ("placeholder", .vstr "enter contact")],
     .vobj [("fieldLabel", .vstr "c"), ("fieldType", .vstr "number")]])])])]

/-- A body that is an empty string, empty array or empty object: valid data a
successful call can carry, distinct from the null failure signal. -/
def emptyButValid (v : Val) : Prop := v = .vstr "" ∨ v = .varr [] ∨ v = .vobj []

/-- A structurally valid node used as the C6 witness input. -/
def sampleNode : Val :=
  .vobj [("type", .vstr "n8n-nodes-base.webhook"), ("name", .vstr "W"),
         ("position", .varr [.vnum 1, .vnum 2]), ("id", .vstr " z "),
         ("maxTries", .vnull), ("disabled", .vbool false),
         ("parameters", .vobj [("path", .vstr "p")])]

/-- A structurally valid workflow object. -/
def cWorkflowOk : Val := .vobj [("name", .vstr "W"),
  ("nodes", .varr [.vobj [("type", .vstr "t"), ("name", .vstr "n"),
    ("position", .varr [.vnum 0, .vnum 0])]]),
  ("connections", .vobj [])]

/-- An environment with no stored credential record. -/
def cEnvNoCfg : Env :=
  ⟨none, fun _ => .err none "network down", "LOCALE",
   "2024-06-01T12:00:00.000Z", "https://n8n.example.com", fun _ => "DATE"⟩

/-- An environment whose workflow fetch returns an inactive workflow. -/
def cEnvInactive : Env :=
  ⟨some ⟨.vstr "key", .vnull⟩,
   fun _ => .ok 200 (.vobj [("name", .vstr "W"), ("active", .vbool false)]),
   "LOCALE", "2024-06-01T12:00:00.000Z", "https://n8n.example.com", fun _ => "DATE"⟩

-- ===========================================================================
-- Shared lemmas
-- ===========================================================================

theorem jsOr_ne_vnull {a b : Val} (h : b ≠ .vnull) : jsOr a b ≠ .vnull := by
  unfold jsOr
  split
  · rename_i ht
    intro hEq
    rw [hEq] at ht
    simp [truthy] at ht
  · exact h

theorem withUserConfig_guard (env : Env) {userId : Val}
    (h : truthy userId = false) (body : N8nConfig → String × List NetRequest) :
    withUserConfig env userId body = (msgUserIdRequired, []) := by
  unfold withUserConfig
  simp [h]

theorem olookup_optChunk_head (c : Bool) (k : String) (v : Val)
    (l : List (String × Val)) :
    olookup (optChunk c k v ++ l) k = if c then some v else olookup l k := by
  cases c <;> simp [optChunk, olookup]

theorem olookup_optChunk_ne {k' k : String} (h : k' ≠ k) (c : Bool) (v : Val)
    (l : List (String × Val)) : olookup (optChunk c k v ++ l) k' = olookup l k' := by
  cases c <;> simp [optChunk, olookup, Ne.symm h]

theorem olookup_optChunk_self (c : Bool) (k : String) (v : Val) :
    olookup (optChunk c k v) k = if c then some v else none := by
  cases c <;> simp [optChunk, olookup]

theorem olookup_optChunk_ne_nil {k' k : String} (h : k' ≠ k) (c : Bool) (v : Val) :
    olookup (optChunk c k v) k' = none := by
  cases c <;> simp [optChunk, olookup, Ne.symm h]

-- ===========================================================================
-- C8: the request executor never raises
-- ===========================================================================

/-- Claim C8: for every endpoint, verb and transport outcome the request
executor either returns the parsed response body (on a resolved call) or
returns null (on any rejection — transport error, timeout or non-2xx under
the default axios policy — and on an unrecognized verb, where the response
read throws into the same catch-all); a successful response whose body is an
empty-but-valid value is returned as-is, never as null. -/
theorem C8_request_executor_never_raises (endpoint : String)
    (apiKey params jsonData : Val) (method : String) (apiBaseUrl : Val)
    (outcome : HttpOutcome) :
    (∀ s d, validMethod method = true → outcome = .ok s d →
      (makeN8nRequest endpoint apiKey params jsonData method apiBaseUrl outcome).1 = d)
    ∧ (∀ r m, outcome = .err r m →
      (makeN8nRequest endpoint apiKey params jsonData method apiBaseUrl outcome).1 = .vnull)
    ∧ (validMethod method = false →
      makeN8nRequest endpoint apiKey params jsonData method apiBaseUrl outcome = (.vnull, []))
    ∧ (∀ s d, validMethod method = true → outcome = .ok s d → emptyButValid d →
      (makeN8nRequest endpoint apiKey params jsonData method apiBaseUrl outcome).1 ≠ .vnull) := by
  refine ⟨?_, ?_, ?_, ?_⟩
  · intro s d hv ho
    simp [makeN8nRequest, hv, ho]
  · intro r m ho
    by_cases hv : validMethod method = true <;> simp [makeN8nRequest, hv, ho]
  · intro hv
    simp [makeN8nRequest, hv]
  · intro s d hv ho he
    simp [makeN8nRequest, hv, ho]
    rcases he with h | h | h <;> rw [h] <;> intro hc <;> cases hc

/-- Witness for C8 at a concrete call. -/
theorem C8_witness :
    validMethod "GET" = true
    ∧ (makeN8nRequest "workflows" (.vstr "k") .vnull .vnull "GET" .vnull
        (.ok 200 (.varr []))).1 = .varr []
    ∧ (makeN8nRequest "workflows" (.vstr "k") .vnull .vnull "GET" .vnull
        (.err none "timeout")).1 = .vnull := by
  refine ⟨by decide, ?_, ?_⟩
  · exact (C8_request_executor_never_raises "workflows" (.vstr "k") .vnull .vnull
      "GET" .vnull (.ok 200 (.varr []))).1 200 (.varr []) (by decide) rfl
  · exact (C8_request_executor_never_raises "workflows" (.vstr "k") .vnull .vnull
      "GET" .vnull (.err none "timeout")).2.1 none "timeout" rfl

-- ===========================================================================
-- C10: template search limit cap
-- ===========================================================================

/-- Claim C10: the template search sends min(limit, 50) as the limit query
parameter of its single request to the public templates endpoint, for every
integer limit; when the limit argument is absent the request carries 20. -/
theorem C10_template_limit_cap (env : Env) (query : Val) (hq : truthy query = true) :
    (∀ n : Int, ∃ ps,
      (searchN8nTemplates env query (.vnum n)).2 =
        [⟨"https://api.n8n.io/api/v1/workflows/templates", "GET", .vobj ps, .vnull⟩]
      ∧ olookup ps "limit" = some (.vnum (min n 50))
      ∧ min n 50 ≤ 50)
    ∧ (∃ ps,
      (searchN8nTemplates env query .vundef).2 =
        [⟨"https://api.n8n.io/api/v1/workflows/templates", "GET", .vobj ps, .vnull⟩]
      ∧ olookup ps "limit" = some (.vnum 20)) := by
  constructor
  · intro n
    refine ⟨[("search", query), ("limit", .vnum (min n 50))], ?_, ?_, ?_⟩
    · unfold searchN8nTemplates
      simp only [hq, Bool.not_true, Bool.false_eq_true, if_false]
      cases env.net 0 <;> simp [jsMin, jsNumber]
      split <;> rfl
    · simp [olookup]
    · exact min_le_right n 50
  · refine ⟨[("search", query), ("limit", .vnum 20)], ?_, ?_⟩
    · unfold searchN8nTemplates
      simp only [hq, Bool.not_true, Bool.false_eq_true, if_false]
      cases env.net 0 <;> simp [jsMin, jsNumber]
      split <;> rfl
    · simp [olookup]

/-- Witness for C10 at limit 99 (capped to 50). -/
theorem C10_witness :
    truthy (Val.vstr "slack") = true
    ∧ ∃ ps, (searchN8nTemplates cEnvNoCfg (.vstr "slack") (.vnum 99)).2 =
        [⟨"https://api.n8n.io/api/v1/workflows/templates", "GET", .vobj ps, .vnull⟩]
      ∧ olookup ps "limit" = some (.vnum 50) := by
  refine ⟨by decide, ?_⟩
  obtain ⟨ps, h1, h2, -⟩ := (C10_template_limit_cap cEnvNoCfg (.vstr "slack") (by decide)).1 99
  refine ⟨ps, h1, ?_⟩
  rw [h2]
  norm_num

-- ===========================================================================
-- C9: update payload frame property
-- ===========================================================================

/-- Claim C9: the workflow-update PUT payload contains exactly those of the
four fields name, nodes, connections, active whose arguments are not null;
a null argument leaves its field out of the payload entirely. -/
theorem C9_update_payload_frame (env : Env)
    (userId workflowId name nodes connections active : Val) (cfg : N8nConfig)
    (hu : truthy userId = true) (hc : env.config = some cfg)
    (hk : truthy cfg.apiKey = true) :
    ∃ (req : NetRequest) (fields : List (String × Val)),
      (updateN8nWorkflow env userId workflowId name nodes connections active).2 = [req]
      ∧ req.method = "PUT"
      ∧ req.body = .vobj fields
      ∧ olookup fields "name" = (if name = .vnull then none else some name)
      ∧ olookup fields "nodes" = (if nodes = .vnull then none else some nodes)
      ∧ olookup fields "connections" = (if connections = .vnull then none else some connections)
      ∧ olookup fields "active" = (if active = .vnull then none else some active)
      ∧ ∀ k v, (k, v) ∈ fields →
          k = "name" ∨ k = "nodes" ∨ k = "connections" ∨ k = "active" := by
  refine ⟨⟨stripTrailSlash (jsString (jsOr cfg.apiBaseUrl (.vstr DEFAULT_N8N_API_BASE)))
      ++ "/" ++ stripLeadSlash ("workflows/" ++ jsString workflowId), "PUT", .vnull,
      .vobj (optChunk (name != .vnull) "name" name
        ++ optChunk (nodes != .vnull) "nodes" nodes
        ++ optChunk (connections != .vnull) "connections" connections
        ++ optChunk (active != .vnull) "active" active)⟩,
    optChunk (name != .vnull) "name" name
      ++ optChunk (nodes != .vnull) "nodes" nodes
      ++ optChunk (connections != .vnull) "connections" connections
      ++ optChunk (active != .vnull) "active" active,
    ?_, rfl, rfl, ?_, ?_, ?_, ?_, ?_⟩
  · unfold updateN8nWorkflow withUserConfig makeN8nRequest
    simp only [hu, hc, hk, Bool.not_true, Bool.false_eq_true, if_false]
    cases env.net 0 <;> simp [validMethod, apply_ite Prod.snd]
  · simp only [List.append_assoc]
    rw [olookup_optChunk_head,
        olookup_optChunk_ne (show ("name" : String) ≠ "nodes" by decide),
        olookup_optChunk_ne (show ("name" : String) ≠ "connections" by decide),
        olookup_optChunk_ne_nil (show ("name" : String) ≠ "active" by decide)]
    by_cases h1 : name = Val.vnull <;> simp [h1, bne_iff_ne]
  · simp only [List.append_assoc]
    rw [olookup_optChunk_ne (show ("nodes" : String) ≠ "name" by decide),
        olookup_optChunk_head,
        olookup_optChunk_ne (show ("nodes" : String) ≠ "connections" by decide),
        olookup_optChunk_ne_nil (show ("nodes" : String) ≠ "active" by decide)]
    by_cases h2 : nodes = Val.vnull <;> simp [h2, bne_iff_ne]
  · simp only [List.append_assoc]
    rw [olookup_optChunk_ne (show ("connections" : String) ≠ "name" by decide),
        olookup_optChunk_ne (show ("connections" : String) ≠ "nodes" by decide),
        olookup_optChunk_head,
        olookup_optChunk_ne_nil (show ("connections" : String) ≠ "active" by decide)]
    by_cases h3 : connections = Val.vnull <;> simp [h3, bne_iff_ne]
  · simp only [List.append_assoc]
    rw [olookup_optChunk_ne (show ("active" : String) ≠ "name" by decide),
        olookup_optChunk_ne (show ("active" : String) ≠ "nodes" by decide),
        olookup_optChunk_ne (show ("active" : String) ≠ "connections" by decide),
        olookup_optChunk_self]
    by_cases h4 : active = Val.vnull <;> simp [h4, bne_iff_ne]
  · intro k v hkv
    simp only [List.append_assoc, List.mem_append, optChunk] at hkv
    rcases hkv with h | h | h | h <;> split at h <;>
      simp_all [List.mem_singleton]

/-- Witness for C9: null nodes and connections are omitted, non-null name and
active are present. -/
theorem C9_witness :
    ∃ (req : NetRequest) (fields : List (String × Val)),
      (updateN8nWorkflow cEnvInactive (.vstr "u") (.vstr "w1") (.vstr "N")
        .vnull .vnull (.vbool true)).2 = [req]
      ∧ req.method = "PUT"
      ∧ req.body = .vobj fields
      ∧ olookup fields "name" = some (.vstr "N")
      ∧ olookup fields "nodes" = none
      ∧ olookup fields "connections" = none
      ∧ olookup fields "active" = some (.vbool true) := by
  obtain ⟨req, fields, h1, h2, h3, h4, h5, h6, h7, -⟩ :=
    C9_update_payload_frame cEnvInactive (.vstr "u") (.vstr "w1") (.vstr "N")
      .vnull .vnull (.vbool true) ⟨.vstr "key", .vnull⟩ (by decide) rfl (by decide)
  refine ⟨req, fields, h1, h2, h3, ?_, ?_, ?_, ?_⟩
  · rw [h4]; decide
  · rw [h5]; decide
  · rw [h6]; decide
  · rw [h7]; decide

-- ===========================================================================
-- C7: inactive workflow rejected before any dispatch
-- ===========================================================================

/-- Claim C7: when the fetched workflow definition has a falsy active flag,
executeN8nWorkflow returns the not-active error message and its request list
is exactly the single initial workflow fetch — no trigger dispatch and no
fallback attempt follow. -/
theorem C7_inactive_no_dispatch (env : Env) (userId workflowId inputData wd : Val)
    (cfg : N8nConfig) (s : Nat)
    (hu : truthy userId = true) (hc : env.config = some cfg)
    (hk : truthy cfg.apiKey = true) (hnet : env.net 0 = .ok s wd)
    (hwd : truthy wd = true) (hact : truthy (getField wd "active") = false) :
    ∃ req : NetRequest,
      executeN8nWorkflow env userId workflowId inputData =
        ("Error: Workflow \"" ++ jsString (jsOr (getField wd "name") workflowId)
          ++ "\" is not active. Please activate the workflow first using the activate_n8n_workflow tool.",
         [req])
      ∧ req.method = "GET" := by
  refine ⟨⟨stripTrailSlash (jsString (jsOr cfg.apiBaseUrl (.vstr DEFAULT_N8N_API_BASE)))
      ++ "/" ++ stripLeadSlash ("workflows/" ++ jsString workflowId),
      "GET", .vnull, .vnull⟩, ?_, rfl⟩
  unfold executeN8nWorkflow withUserConfig makeN8nRequest
  simp [hu, hc, hk, hnet, hwd, hact, validMethod]

/-- Witness for C7 on a concrete inactive workflow. -/
theorem C7_witness :
    ∃ req : NetRequest,
      executeN8nWorkflow cEnvInactive (.vstr "u") (.vstr "w1") .vnull =
        ("Error: Workflow \"W\" is not active. Please activate the workflow first using the activate_n8n_workflow tool.",
         [req])
      ∧ req.method = "GET" := by
  obtain ⟨req, h1, h2⟩ := C7_inactive_no_dispatch cEnvInactive (.vstr "u") (.vstr "w1")
    .vnull (.vobj [("name", .vstr "W"), ("active", .vbool false)])
    ⟨.vstr "key", .vnull⟩ 200 (by decide) rfl (by decide) rfl rfl (by decide)
  refine ⟨req, ?_, h2⟩
  rw [h1]
  rfl

-- ===========================================================================
-- C1: missing-user-id guard
-- ===========================================================================

/-- Claim C1 (amended): every operation that requires user authentication —
the sixteen workflow, execution, credential, user, webhook and tag operations
— returns the exact configuration-required message and issues no network
request when the supplied user id is missing (falsy); the operations backed
by the public catalog take no user id at all, and workflow validation treats
the user id as optional, so they are outside this guarantee. -/
theorem C1_userId_guard (env : Env) (userId : Val) (h : truthy userId = false) :
    (∀ limit, listN8nWorkflows env userId limit = (msgUserIdRequired, []))
    ∧ (∀ wid, getN8nWorkflow env userId wid = (msgUserIdRequired, []))
    ∧ (∀ nm nd cn st sd sh,
        createN8nWorkflow env userId nm nd cn st sd sh = (msgUserIdRequired, []))
    ∧ (∀ wid nm nd cn ac,
        updateN8nWorkflow env userId wid nm nd cn ac = (msgUserIdRequired, []))
    ∧ (∀ wid, deleteN8nWorkflow env userId wid = (msgUserIdRequired, []))
    ∧ (∀ wid, activateN8nWorkflow env userId wid = (msgUserIdRequired, []))
    ∧ (∀ wid, deactivateN8nWorkflow env userId wid = (msgUserIdRequired, []))
    ∧ (∀ wid limit, listN8nExecutions env userId wid limit = (msgUserIdRequired, []))
    ∧ (∀ eid, getN8nExecution env userId eid = (msgUserIdRequired, []))
    ∧ (∀ wid inp, executeN8nWorkflow env userId wid inp = (msgUserIdRequired, []))
    ∧ (listN8nCredentials env userId = (msgUserIdRequired, []))
    ∧ (∀ cid, getN8nCredential env userId cid = (msgUserIdRequired, []))
    ∧ (getN8nUserInfo env userId = (msgUserIdRequired, []))
    ∧ (listN8nWebhooks env userId = (msgUserIdRequired, []))
    ∧ (listN8nTags env userId = (msgUserIdRequired, []))
    ∧ (∀ nm, createN8nTag env userId nm = (msgUserIdRequired, [])) := by
  refine ⟨fun _ => ?_, fun _ => ?_, fun _ _ _ _ _ _ => ?_, fun _ _ _ _ _ => ?_,
    fun _ => ?_, fun _ => ?_, fun _ => ?_, fun _ _ => ?_, fun _ => ?_, fun _ _ => ?_,
    ?_, fun _ => ?_, ?_, ?_, ?_, fun _ => ?_⟩ <;>
    exact withUserConfig_guard env h _

/-- Witness for C1 at a null user id. -/
theorem C1_userId_guard_witness :
    truthy Val.vnull = false
    ∧ listN8nWorkflows cEnvInactive .vnull (.vnum 100) = (msgUserIdRequired, [])
    ∧ executeN8nWorkflow cEnvInactive .vnull (.vstr "w1") .vnull = (msgUserIdRequired, []) := by
  have h := C1_userId_guard cEnvInactive .vnull (by decide)
  exact ⟨by decide, h.1 _, h.2.2.2.2.2.2.2.2.2.1 _ _⟩

/-- Counterexample to C1 as stated: validateN8nWorkflow is an operation that
accepts a user id, yet with a null user id and a valid workflow it returns a
validation report, not the configuration-required message (it does issue no
network call). -/
theorem C1_counterexample :
    (validateN8nWorkflow cEnvNoCfg .vnull cWorkflowOk).1 ≠ msgUserIdRequired
    ∧ (validateN8nWorkflow cEnvNoCfg .vnull cWorkflowOk).2 = [] := by
  constructor
  · decide
  · rfl

-- ===========================================================================
-- C2: trigger detection is first-match in node-list order
-- ===========================================================================

theorem find_first_take {α : Type} (p : α → Bool) :
    ∀ (l : List α) (i : Nat) (hi : i < l.length),
      p (l.get ⟨i, hi⟩) = true →
      (∀ a ∈ l.take i, p a = false) →
      l.find? p = some (l.get ⟨i, hi⟩)
  | [], i, hi, _, _ => absurd hi (by simp)
  | a :: l, 0, _, hp, _ => by simp_all [List.find?]
  | a :: l, i + 1, hi, hp, hbefore => by
      have ha : p a = false := hbefore a (by simp)
      simp only [List.find?, ha]
      exact find_first_take p l i (Nat.lt_of_succ_lt_succ hi) hp
        (fun b hb => hbefore b (by simp [List.take, hb]))

/-- When a trigger node is found, the detector reports that node and the
mapped trigger kind of its type. -/
theorem detect_found (wd : Val) (nodesL : List Val) (node : Val)
    (h : getField wd "nodes" = .varr nodesL)
    (hfind : nodesL.find? isTriggerNode = some node) :
    getField (detectWorkflowTrigger wd) "node" = node
    ∧ getField (detectWorkflowTrigger wd) "type" =
        .vstr (triggerTypeOf (getField node "type")) := by
  unfold detectWorkflowTrigger
  rw [h]
  simp only [truthy, isArray, Bool.not_true, Bool.or_self, Bool.false_eq_true, if_false]
  rw [show elemsOf (Val.varr nodesL) = nodesL from rfl, hfind]
  constructor <;> simp [getField, olookup]

/-- Claim C2: the trigger detector classifies a workflow by the first node in
node-list order whose type is one of the five known trigger identifiers,
returns unknown when no node matches, and on a workflow with a webhook node
declaring parameters.path = "abc" and no method it reports type webhook,
path "abc" and httpMethod "POST". -/
theorem C2_trigger_detector (wd : Val) (nodesL : List Val)
    (h : getField wd "nodes" = .varr nodesL) :
    ((∀ n ∈ nodesL, isTriggerNode n = false) →
      getField (detectWorkflowTrigger wd) "type" = .vstr "unknown")
    ∧ (∀ i (hi : i < nodesL.length) (t k : String),
        isTriggerNode (nodesL.get ⟨i, hi⟩) = true →
        (∀ n ∈ nodesL.take i, isTriggerNode n = false) →
        getField (nodesL.get ⟨i, hi⟩) "type" = .vstr t →
        (t, k) ∈ triggerNodeTypes →
        getField (detectWorkflowTrigger wd) "node" = nodesL.get ⟨i, hi⟩
        ∧ getField (detectWorkflowTrigger wd) "type" = .vstr k)
    ∧ detectWorkflowTrigger (.vobj [("nodes", .varr [.vobj
        [("type", .vstr "n8n-nodes-base.webhook"),
         ("parameters", .vobj [("path", .vstr "abc")])]])]) =
      .vobj [("type", .vstr "webhook"),
             ("node", .vobj [("type", .vstr "n8n-nodes-base.webhook"),
                             ("parameters", .vobj [("path", .vstr "abc")])]),
             ("path", .vstr "abc"), ("httpMethod", .vstr "POST")] := by
  refine ⟨?_, ?_, by rfl⟩
  · intro hnone
    unfold detectWorkflowTrigger
    rw [h]
    have hfind : nodesL.find? isTriggerNode = none :=
      List.find?_eq_none.mpr (fun x hx => by simp [hnone x hx])
    simp [elemsOf, truthy, isArray, hfind, getField, olookup]
  · intro i hi t k hp hbefore ht hmem
    have hfind : nodesL.find? isTriggerNode = some (nodesL.get ⟨i, hi⟩) :=
      find_first_take _ nodesL i hi hp hbefore
    obtain ⟨h1, h2⟩ := detect_found wd nodesL _ h hfind
    refine ⟨h1, ?_⟩
    rw [h2, ht]
    have hlook : triggerTypeOf (Val.vstr t) = k := by
      simp only [triggerNodeTypes, List.mem_cons, List.not_mem_nil, or_false,
        Prod.mk.injEq] at hmem
      rcases hmem with ⟨e1, e2⟩ | ⟨e1, e2⟩ | ⟨e1, e2⟩ | ⟨e1, e2⟩ | ⟨e1, e2⟩ <;>
        subst e1 <;> subst e2 <;> rfl
    rw [hlook]

/-- Witness for C2: the unknown case and a first-match case where a
non-trigger node precedes a schedule trigger. -/
theorem C2_witness :
    getField (detectWorkflowTrigger (.vobj [("nodes", .varr
        [.vobj [("type", .vstr "n8n-nodes-base.set")]])])) "type" = .vstr "unknown"
    ∧ getField (detectWorkflowTrigger (.vobj [("nodes", .varr
        [.vobj [("type", .vstr "n8n-nodes-base.set")],
         .vobj [("type", .vstr "n8n-nodes-base.scheduleTrigger")]])])) "type" =
      .vstr "schedule" := by
  constructor
  · exact (C2_trigger_detector
      (.vobj [("nodes", .varr [.vobj [("type", .vstr "n8n-nodes-base.set")]])])
      [.vobj [("type", .vstr "n8n-nodes-base.set")]] rfl).1 (by decide)
  · exact ((C2_trigger_detector
      (.vobj [("nodes", .varr
        [.vobj [("type", .vstr "n8n-nodes-base.set")],
         .vobj [("type", .vstr "n8n-nodes-base.scheduleTrigger")]])])
      [.vobj [("type", .vstr "n8n-nodes-base.set")],
       .vobj [("type", .vstr "n8n-nodes-base.scheduleTrigger")]] rfl).2.1 1 (by decide)
      "n8n-nodes-base.scheduleTrigger" "schedule" (by decide) (by decide)
      (by decide) (by decide)).2

-- ===========================================================================
-- C5: form identifier fallback chain
-- ===========================================================================

theorem foldr_jsOr_find (vs : List Val) (dflt : Val) :
    vs.foldr jsOr dflt = (match vs.find? truthy with
      | some v => v
      | none => dflt) := by
  induction vs with
  | nil => rfl
  | cons a vs ih =>
    simp only [List.foldr, List.find?]
    by_cases ha : truthy a
    · simp [jsOr, ha]
    · simp only [Bool.not_eq_true] at ha
      simp [jsOr, ha, ih]

/-- The full detector result once a trigger node has been found. -/
theorem detect_found_full (wd : Val) (nodesL : List Val) (node : Val)
    (h : getField wd "nodes" = .varr nodesL)
    (hfind : nodesL.find? isTriggerNode = some node) :
    detectWorkflowTrigger wd =
      .vobj [("type", .vstr (triggerTypeOf (getField node "type"))),
             ("node", node),
             ("path",
               if triggerTypeOf (getField node "type") = "webhook" then
                 jsOr (getField (getField node "parameters") "path")
                   (jsOr (getField (getField node "parameters") "pathPrefix")
                     (jsOr (getField (getField (getField node "parameters") "options") "path")
                       (.vstr "")))
               else if triggerTypeOf (getField node "type") = "form" then
                 jsOr (getField (getField node "parameters") "formId")
                   (jsOr (getField (getField node "parameters") "id")
                     (jsOr (getField node "webhookId")
                       (jsOr (getField (getField wd "settings") "formId")
                         (jsOr (getField (getField wd "staticData") "formId")
                           (jsOr (getField wd "webhookId")
                             (getField wd "id"))))))
               else .vnull),
             ("httpMethod",
               if triggerTypeOf (getField node "type") = "webhook" then
                 jsOr (getField (getField node "parameters") "httpMethod")
                   (jsOr (getField (getField (getField node "parameters") "options") "httpMethod")
                     (.vstr "POST"))
               else .vstr "POST")] := by
  unfold detectWorkflowTrigger
  rw [h]
  simp only [truthy, isArray, Bool.not_true, Bool.or_self, Bool.false_eq_true, if_false]
  rw [show elemsOf (Val.varr nodesL) = nodesL from rfl, hfind]

/-- For a detected form trigger, the reported path is the source's
six-stage || chain over the id locations, ending at the workflow id. -/
theorem detect_form_path (wd : Val) (nodesL : List Val) (node : Val)
    (h : getField wd "nodes" = .varr nodesL)
    (hfind : nodesL.find? isTriggerNode = some node)
    (hform : getField node "type" = .vstr "n8n-nodes-base.formTrigger") :
    getField (detectWorkflowTrigger wd) "path" =
      jsOr (getField (getField node "parameters") "formId")
        (jsOr (getField (getField node "parameters") "id")
          (jsOr (getField node "webhookId")
            (jsOr (getField (getField wd "settings") "formId")
              (jsOr (getField (getField wd "staticData") "formId")
                (jsOr (getField wd "webhookId")
                  (getField wd "id")))))) := by
  rw [detect_found_full wd nodesL node h hfind]
  have htt : triggerTypeOf (getField node "type") = "form" := by
    rw [hform]
    rfl
  rw [htt]
  simp [getField, olookup]

/-- Claim C5: for every workflow whose detected trigger node is a form
trigger, the form identifier is the first populated value among the candidate
locations in fixed priority order — node parameters.formId, node
parameters.id, node-level webhookId, workflow settings.formId, workflow
staticData.formId, workflow-level webhookId — falling back to the workflow id
when none is populated. -/
theorem C5_form_id_fallback (wd : Val) (nodesL : List Val) (node : Val)
    (h : getField wd "nodes" = .varr nodesL)
    (hfind : nodesL.find? isTriggerNode = some node)
    (hform : getField node "type" = .vstr "n8n-nodes-base.formTrigger") :
    getField (detectWorkflowTrigger wd) "path" =
      (match [getField (getField node "parameters") "formId",
              getField (getField node "parameters") "id",
              getField node "webhookId",
              getField (getField wd "settings") "formId",
              getField (getField wd "staticData") "formId",
              getField wd "webhookId"].find? truthy with
       | some v => v
       | none => getField wd "id") := by
  rw [detect_form_path wd nodesL node h hfind hform]
  exact foldr_jsOr_find
    [getField (getField node "parameters") "formId",
     getField (getField node "parameters") "id",
     getField node "webhookId",
     getField (getField wd "settings") "formId",
     getField (getField wd "staticData") "formId",
     getField wd "webhookId"] (getField wd "id")

/-- Witness for C5: the node-level locations are absent, so the identifier
comes from workflow settings.formId. -/
theorem C5_witness :
    getField (detectWorkflowTrigger (.vobj
      [("nodes", .varr [.vobj [("type", .vstr "n8n-nodes-base.formTrigger")]]),
       ("settings", .vobj [("formId", .vstr "S")]),
       ("id", .vstr "wf-id")])) "path" = .vstr "S" := by
  rw [C5_form_id_fallback (.vobj
      [("nodes", .varr [.vobj [("type", .vstr "n8n-nodes-base.formTrigger")]]),
       ("settings", .vobj [("formId", .vstr "S")]),
       ("id", .vstr "wf-id")])
    [.vobj [("type", .vstr "n8n-nodes-base.formTrigger")]]
    (.vobj [("type", .vstr "n8n-nodes-base.formTrigger")]) rfl (by decide) rfl]
  rfl

-- ===========================================================================
-- C4: caller-input merge semantics
-- ===========================================================================

theorem olookup_eq_none_of_not_mem (fs : List (String × Val)) (k : String)
    (h : k ∉ fs.map Prod.fst) : olookup fs k = none := by
  induction fs with
  | nil => rfl
  | cons p fs ih =>
    simp only [List.map_cons, List.mem_cons] at h
    push_neg at h
    simp [olookup, Ne.symm h.1, ih h.2]

theorem olookup_map_replace (k : String) (v : Val) :
    ∀ fs : List (String × Val),
      olookup (fs.map (fun p => if p.1 = k then (k, v) else p)) k =
        (olookup fs k).map (fun _ => v)
  | [] => rfl
  | p :: fs => by
      have ih := olookup_map_replace k v fs
      by_cases hp : p.1 = k
      · rw [List.map_cons, if_pos hp]
        simp only [olookup]
        simp [hp]
      · rw [List.map_cons, if_neg hp]
        simp only [olookup]
        rw [if_neg hp, if_neg hp]
        exact ih

theorem olookup_map_replace_ne (k : String) (v : Val) {k' : String} (h : k' ≠ k) :
    ∀ fs : List (String × Val),
      olookup (fs.map (fun p => if p.1 = k then (k, v) else p)) k' = olookup fs k'
  | [] => rfl
  | p :: fs => by
      have ih := olookup_map_replace_ne k v h fs
      by_cases hp : p.1 = k
      · rw [List.map_cons, if_pos hp]
        simp only [olookup]
        rw [if_neg (Ne.symm h), if_neg (fun hh : p.1 = k' => h (hh ▸ hp))]
        exact ih
      · rw [List.map_cons, if_neg hp]
        simp only [olookup]
        by_cases hpk : p.1 = k'
        · rw [if_pos hpk, if_pos hpk]
        · rw [if_neg hpk, if_neg hpk]
          exact ih

theorem olookup_append_cases :
    ∀ (l₁ l₂ : List (String × Val)) (k : String),
      olookup (l₁ ++ l₂) k = (match olookup l₁ k with
        | some v => some v
        | none => olookup l₂ k)
  | [], _, _ => rfl
  | p :: l₁, l₂, k => by
      by_cases hp : p.1 = k <;> simp [olookup, hp, olookup_append_cases l₁ l₂ k]

theorem olookup_isSome_of_any (k : String) :
    ∀ fs : List (String × Val),
      (fs.any fun p => p.1 = k) = true → (olookup fs k).isSome = true
  | p :: fs, h => by
      by_cases hp : p.1 = k
      · simp [olookup, hp]
      · simp only [List.any_cons, Bool.or_eq_true, decide_eq_true_eq] at h
        rcases h with h | h
        · exact absurd h hp
        · simp [olookup, hp, olookup_isSome_of_any k fs h]

theorem olookup_none_of_not_any (k : String) :
    ∀ fs : List (String × Val),
      (fs.any fun p => p.1 = k) = false → olookup fs k = none
  | [], _ => rfl
  | p :: fs, h => by
      simp only [List.any_cons, Bool.or_eq_false_iff, decide_eq_false_iff_not] at h
      simp [olookup, h.1, olookup_none_of_not_any k fs (by simp [h.2])]

theorem olookup_objSet_self (fs : List (String × Val)) (k : String) (v : Val) :
    olookup (objSet fs k v) k = some v := by
  unfold objSet
  split
  · rename_i hany
    rw [olookup_map_replace]
    have hs := olookup_isSome_of_any k fs hany
    match holu : olookup fs k with
    | some w => simp
    | none => rw [holu] at hs; simp at hs
  · rename_i hany
    have hfalse : (fs.any fun p => p.1 = k) = false := by
      revert hany
      cases fs.any fun p => p.1 = k <;> simp
    rw [olookup_append_cases, olookup_none_of_not_any k fs hfalse]
    simp [olookup]

theorem olookup_objSet_of_ne (fs : List (String × Val)) {k k' : String} (v : Val)
    (h : k' ≠ k) : olookup (objSet fs k v) k' = olookup fs k' := by
  unfold objSet
  split
  · exact olookup_map_replace_ne k v h fs
  · rw [olookup_append_cases]
    match holu : olookup fs k' with
    | some w => simp
    | none => simp [olookup, Ne.symm h]

theorem mergeLoop1_lookup (inputData : Val) (ks : List String) :
    ∀ (st : List (String × Val) × Bool) (k : String),
      olookup ((ks.foldl (mergeStep1 inputData) st).1) k =
        (if k ∈ ks ∧ ¬ emptyish (getField inputData k) then some (getField inputData k)
         else olookup st.1 k) := by
  induction ks with
  | nil =>
    intro st k
    simp
  | cons k0 ks ih =>
    intro st k
    simp only [List.foldl_cons]
    rw [ih]
    by_cases hk : k = k0
    · subst hk
      by_cases he : emptyish (getField inputData k)
      · simp [mergeStep1, he]
      · by_cases hm : k ∈ ks <;>
          simp [mergeStep1, he, hm, olookup_objSet_self]
    · have hmem : (k ∈ k0 :: ks) = (k ∈ ks) := by simp [List.mem_cons, hk]
      by_cases he : emptyish (getField inputData k0)
      · simp only [mergeStep1, if_pos he, hmem]
      · simp only [mergeStep1, if_neg he]
        by_cases hc : k ∈ ks ∧ ¬ emptyish (getField inputData k)
        · simp [hc, hmem]
        · simp [hc, hmem, olookup_objSet_of_ne _ _ hk]

theorem mergeLoop2_lookup (es : List (String × Val))
    (hnd : (es.map Prod.fst).Nodup) :
    ∀ (st : List (String × Val) × Bool) (k : String),
      (olookup es k = none → olookup ((es.foldl mergeStep2 st).1) k = olookup st.1 k)
      ∧ (∀ d, olookup es k = some d →
          olookup ((es.foldl mergeStep2 st).1) k =
            some (match olookup st.1 k with
                  | none => d
                  | some cur => if emptyish cur then d else cur)) := by
  induction es with
  | nil =>
    intro st k
    exact ⟨fun _ => rfl, fun d hd => by simp [olookup] at hd⟩
  | cons e es ih =>
    intro st k
    obtain ⟨k0, d0⟩ := e
    simp only [List.map_cons, List.nodup_cons] at hnd
    have hnd2 := hnd.2
    have hk0 : k0 ∉ es.map Prod.fst := hnd.1
    have hst1 : ∀ k', k' ≠ k0 →
        olookup (mergeStep2 st (k0, d0)).1 k' = olookup st.1 k' := by
      intro k' hk'
      unfold mergeStep2
      match holu : olookup st.1 k0 with
      | none => simp [olookup_objSet_of_ne _ _ hk']
      | some cur =>
        by_cases he : emptyish cur <;>
          simp [he, olookup_objSet_of_ne _ _ hk']
    constructor
    · intro hnone
      simp only [olookup] at hnone
      by_cases hkk : k0 = k
      · simp [hkk] at hnone
      · simp only [if_neg hkk] at hnone
        simp only [List.foldl_cons]
        rw [(ih hnd2 _ k).1 hnone]
        exact hst1 k (fun hh => hkk (hh.symm))
    · intro d hd
      simp only [olookup] at hd
      by_cases hkk : k0 = k
      · subst hkk
        rw [if_pos rfl] at hd
        injection hd with hd
        subst hd
        simp only [List.foldl_cons]
        have hes : olookup es k0 = none := olookup_eq_none_of_not_mem es k0 hk0
        rw [(ih hnd2 _ k0).1 hes]
        unfold mergeStep2
        match holu : olookup st.1 k0 with
        | none => simp [holu, olookup_objSet_self]
        | some cur =>
          by_cases he : emptyish cur <;>
            simp [holu, he, olookup_objSet_self]
      · simp only [if_neg hkk] at hd
        simp only [List.foldl_cons]
        rw [((ih hnd2 _ k).2 d) hd, hst1 k (fun hh => hkk hh.symm)]

/-- Claim C4: when caller-supplied form input is merged over synthesized
defaults, a caller value overrides the default exactly when it is neither
null, undefined nor the empty string; in particular, caller input
field-0 = "" and field-1 = "x" over two synthesized defaults keeps the
default for field-0 and takes "x" for field-1. -/
theorem C4_merge_override_iff (defaults fs : List (String × Val))
    (hnd : (defaults.map Prod.fst).Nodup) :
    (∀ k d, olookup defaults k = some d →
      olookup ((mergeFormData defaults (.vobj fs)).1) k =
        (if emptyish (getField (.vobj fs) k) then some d
         else some (getField (.vobj fs) k)))
    ∧ (mergeFormData (generateDefaultFormData "L" "I" cFormNode2 (.vobj []))
        (.vobj [("field-0", .vstr ""), ("field-1", .vstr "x")])).1 =
      [("field-0", .vstr "Sample text"), ("field-1", .vstr "x")] := by
  constructor
  · intro k d hd
    unfold mergeFormData
    by_cases hlen : 0 < (keysOf (Val.vobj fs)).length
    · have hc : (truthy (Val.vobj fs) && typeofObject (Val.vobj fs)
          && decide (0 < (keysOf (Val.vobj fs)).length)) = true := by
        simp [truthy, typeofObject, hlen]
      rw [if_pos hc]
      rw [((mergeLoop2_lookup defaults hnd _ k).2 d) hd,
        mergeLoop1_lookup (.vobj fs) (keysOf (.vobj fs)) (defaults, true) k]
      by_cases he : emptyish (getField (.vobj fs) k)
      · simp [he, hd]
      · have hkmem : k ∈ keysOf (Val.vobj fs) := by
          by_contra hkn
          have : getField (Val.vobj fs) k = .vundef := by
            simp only [getField]
            rw [olookup_eq_none_of_not_mem fs k (by simpa [keysOf] using hkn)]
            rfl
          exact he (by simp [emptyish, this])
        simp [he, hkmem]
    · have hzero : (keysOf (Val.vobj fs)).length = 0 := by omega
      have hfs : fs = [] := by
        simpa [keysOf] using List.length_eq_zero.mp hzero
      subst hfs
      simp [truthy, typeofObject, keysOf, hd, getField, olookup, emptyish]
  · decide

/-- Witness for C4 with two synthesized defaults and mixed caller input. -/
theorem C4_witness :
    olookup ((mergeFormData [("field-0", .vstr "D0"), ("field-1", .vstr "D1")]
        (.vobj [("field-0", .vstr ""), ("field-1", .vstr "x")])).1) "field-0" =
      some (.vstr "D0")
    ∧ olookup ((mergeFormData [("field-0", .vstr "D0"), ("field-1", .vstr "D1")]
        (.vobj [("field-0", .vstr ""), ("field-1", .vstr "x")])).1) "field-1" =
      some (.vstr "x") := by
  have h := (C4_merge_override_iff [("field-0", .vstr "D0"), ("field-1", .vstr "D1")]
    [("field-0", .vstr ""), ("field-1", .vstr "x")] (by decide)).1
  constructor
  · have := h "field-0" (.vstr "D0") (by decide)
    rw [this]
    decide
  · have := h "field-1" (.vstr "D1") (by decide)
    rw [this]
    decide

-- ===========================================================================
-- C3: form-field synthesizer on a text/email/number declaration
-- ===========================================================================

theorem fieldsMissing_three (a b c : Val) : fieldsMissing (.varr [a, b, c]) = false := rfl

theorem effStage2_found (params ff : Val) (h : fieldsMissing ff = false) :
    effStage2 params ff = ff := by simp [effStage2, h]

theorem effStage3_found (wdv ff : Val) (h : fieldsMissing ff = false) :
    effStage3 wdv ff = ff := by simp [effStage3, h]

theorem effStage4_found (params ff : Val) (h : fieldsMissing ff = false) :
    effStage4 params ff = ff := by simp [effStage4, h]

theorem extractFormFields_three (node wdv f0 f1 f2 : Val)
    (hvals : getField (getField (getField node "parameters") "formFields") "values" =
      .varr [f0, f1, f2]) :
    extractFormFields node wdv =
      [mapFormFieldEntry f0, mapFormFieldEntry f1, mapFormFieldEntry f2] := by
  delta extractFormFields
  simp only []
  rw [hvals]
  rw [show (if isArray (Val.varr [f0, f1, f2]) then
        Val.varr ((elemsOf (Val.varr [f0, f1, f2])).map mapFormFieldEntry)
      else Val.varr []) =
      Val.varr [mapFormFieldEntry f0, mapFormFieldEntry f1, mapFormFieldEntry f2] from by
    simp [isArray, elemsOf]]
  rw [effStage2_found _ _ (fieldsMissing_three _ _ _),
      effStage3_found _ _ (fieldsMissing_three _ _ _),
      effStage4_found _ _ (fieldsMissing_three _ _ _)]

theorem generateDefaultFormData_three (loc iso : String) (node wdv f0 f1 f2 : Val)
    (hvals : getField (getField (getField node "parameters") "formFields") "values" =
      .varr [f0, f1, f2]) :
    generateDefaultFormData loc iso node wdv =
      [("field-0", synthFieldValue loc iso wdv (mapFormFieldEntry f0)),
       ("field-1", synthFieldValue loc iso wdv (mapFormFieldEntry f1)),
       ("field-2", synthFieldValue loc iso wdv (mapFormFieldEntry f2))] := by
  delta generateDefaultFormData
  rw [extractFormFields_three node wdv f0 f1 f2 hvals]
  simp only [List.length_cons, List.length_nil, List.enum, List.enumFrom,
    List.foldl_cons, List.foldl_nil]
  rw [if_pos (by norm_num)]
  rw [show ("field-" ++ toString (0 : Nat)) = "field-0" from rfl,
      show ("field-" ++ toString (1 : Nat)) = "field-1" from rfl,
      show ("field-" ++ toString (2 : Nat)) = "field-2" from rfl]
  simp [objSet]

theorem mapFormFieldEntry_lookups (f : Val) :
    getField (mapFormFieldEntry f) "fieldType" = jsOr (getField f "fieldType") (.vstr "text")
    ∧ getField (mapFormFieldEntry f) "defaultValue" = getField f "defaultValue"
    ∧ getField (mapFormFieldEntry f) "default" = .vundef
    ∧ getField (mapFormFieldEntry f) "placeholder" = getField f "placeholder"
    ∧ getField (mapFormFieldEntry f) "min" = .vundef := by
  refine ⟨?_, ?_, ?_, ?_, ?_⟩ <;> rfl

set_option maxHeartbeats 2000000 in
/-- The synthesized value for a mapped field whose declared type is email and
whose placeholder is not populated. -/
theorem synth_email_no_placeholder (loc iso : String) (wdv f : Val)
    (ht : getField f "fieldType" = .vstr "email")
    (hd : isNullOrUndef (getField f "defaultValue") = true)
    (hp : truthy (getField f "placeholder") = false) :
    synthFieldValue loc iso wdv (mapFormFieldEntry f) = .vstr "user@example.com" := by
  have hft : getField (mapFormFieldEntry f) "fieldType" = .vstr "email" := by
    rw [(mapFormFieldEntry_lookups f).1, ht]
    rfl
  delta synthFieldValue
  simp only [hft, (mapFormFieldEntry_lookups f).2.1, (mapFormFieldEntry_lookups f).2.2.1,
    (mapFormFieldEntry_lookups f).2.2.2.1, hd]
  simp only [isNullOrUndef, Bool.not_true, Bool.not_false, Bool.false_eq_true, if_false]
  simp only [jsOr]
  simp only [hp, Bool.false_eq_true, if_false]
  simp [truthy, show strLower "email" = "email" from by decide]

set_option maxHeartbeats 2000000 in
/-- The synthesized value for a mapped field whose declared type is number:
the extraction step drops any min bound, so the value is 1. -/
theorem synth_number_mapped (loc iso : String) (wdv f : Val)
    (ht : getField f "fieldType" = .vstr "number")
    (hd : isNullOrUndef (getField f "defaultValue") = true) :
    synthFieldValue loc iso wdv (mapFormFieldEntry f) = .vnum 1 := by
  have hft : getField (mapFormFieldEntry f) "fieldType" = .vstr "number" := by
    rw [(mapFormFieldEntry_lookups f).1, ht]
    rfl
  delta synthFieldValue
  simp only [hft, (mapFormFieldEntry_lookups f).2.1, (mapFormFieldEntry_lookups f).2.2.1,
    (mapFormFieldEntry_lookups f).2.2.2.2, hd]
  simp only [isNullOrUndef, Bool.not_true, Bool.not_false, Bool.false_eq_true, if_false]
  simp only [jsOr]
  simp [truthy, show strLower "number" = "number" from by decide]

theorem jsOr_truthy {a : Val} (h : truthy a = true) (b : Val) : jsOr a b = a := by
  simp [jsOr, h]

set_option maxHeartbeats 2000000 in
/-- The synthesized value for a mapped text field is never null, whatever the
label, placeholder and workflow name are. -/
theorem synth_text_ne_vnull (loc iso : String) (wdv f : Val)
    (ht : getField f "fieldType" = .vstr "text")
    (hd : isNullOrUndef (getField f "defaultValue") = true) :
    synthFieldValue loc iso wdv (mapFormFieldEntry f) ≠ .vnull := by
  have hft : getField (mapFormFieldEntry f) "fieldType" = .vstr "text" := by
    rw [(mapFormFieldEntry_lookups f).1, ht]
    rfl
  delta synthFieldValue
  simp only [hft, (mapFormFieldEntry_lookups f).2.1, (mapFormFieldEntry_lookups f).2.2.1, hd]
  rw [jsOr_truthy (show truthy (Val.vstr "text") = true from rfl)]
  simp only [isNullOrUndef, Bool.not_true, Bool.not_false, Bool.false_eq_true, if_false]
  simp only [show strLower "text" = "text" from by decide]
  rw [if_pos (Or.inl trivial)]
  split
  · split
    · intro hc
      cases hc
    · split
      · apply jsOr_ne_vnull
        intro hc
        cases hc
      · apply jsOr_ne_vnull
        intro hc
        cases hc
  · split
    · apply jsOr_ne_vnull
      intro hc
      cases hc
    · split
      · apply jsOr_ne_vnull
        intro hc
        cases hc
      · split
        · apply jsOr_ne_vnull
          intro hc
          cases hc
        · split
          · apply jsOr_ne_vnull
            intro hc
            cases hc
          · apply jsOr_ne_vnull
            split <;> (intro hc; cases hc)

/-- Claim C3 (amended): for every form-trigger node declaring exactly three
fields of types text, email and number, with no caller-supplied input, no
declared default values, and no populated placeholder on the email field, the
synthesizer returns exactly the keys field-0, field-1, field-2, each bound to
a non-null value, and the email field receives user@example.com, which
contains an @.  (Without the placeholder condition the claim fails: a
populated placeholder is copied verbatim into the email field.) -/
theorem C3_synthesizer (loc iso : String) (node wdv f0 f1 f2 : Val)
    (hvals : getField (getField (getField node "parameters") "formFields") "values" =
      .varr [f0, f1, f2])
    (ht0 : getField f0 "fieldType" = .vstr "text")
    (ht1 : getField f1 "fieldType" = .vstr "email")
    (ht2 : getField f2 "fieldType" = .vstr "number")
    (hd0 : isNullOrUndef (getField f0 "defaultValue") = true)
    (hd1 : isNullOrUndef (getField f1 "defaultValue") = true)
    (hd2 : isNullOrUndef (getField f2 "defaultValue") = true)
    (hp1 : truthy (getField f1 "placeholder") = false) :
    ∃ v0 v2,
      generateDefaultFormData loc iso node wdv =
        [("field-0", v0), ("field-1", .vstr "user@example.com"), ("field-2", v2)]
      ∧ v0 ≠ .vnull ∧ v2 ≠ .vnull
      ∧ strIncludes "user@example.com" "@" = true := by
  refine ⟨synthFieldValue loc iso wdv (mapFormFieldEntry f0),
          synthFieldValue loc iso wdv (mapFormFieldEntry f2), ?_, ?_, ?_, by decide⟩
  · rw [generateDefaultFormData_three loc iso node wdv f0 f1 f2 hvals,
      synth_email_no_placeholder loc iso wdv f1 ht1 hd1 hp1]
  · exact synth_text_ne_vnull loc iso wdv f0 ht0 hd0
  · rw [synth_number_mapped loc iso wdv f2 ht2 hd2]
    intro hc
    cases hc

/-- Witness for C3 on a concrete three-field form node. -/
theorem C3_witness :
    ∃ v0 v2,
      generateDefaultFormData "LOCALE" "2024-06-01T12:00:00.000Z" cFormNode3 (.vobj []) =
        [("field-0", v0), ("field-1", .vstr "user@example.com"), ("field-2", v2)]
      ∧ v0 ≠ .vnull ∧ v2 ≠ .vnull
      ∧ strIncludes "user@example.com" "@" = true :=
  C3_synthesizer "LOCALE" "2024-06-01T12:00:00.000Z" cFormNode3 (.vobj [])
    (.vobj [("fieldLabel", .vstr "Your text"), ("fieldType", .vstr "text")])
    (.vobj [("fieldLabel", .vstr "Contact"), ("fieldType", .vstr "email")])
    (.vobj [("fieldLabel", .vstr "Age"), ("fieldType", .vstr "number")])
    rfl rfl rfl rfl (by decide) (by decide) (by decide) (by decide)

/-- Counterexample to C3 as stated: the node declares exactly three fields of
types text, email and number with no default values, yet the email field
synthesizes its placeholder "enter contact", which contains no @. -/
theorem C3_counterexample :
    generateDefaultFormData "LOCALE" "2024-06-01T12:00:00.000Z"
        cFormNodeBadPlaceholder (.vobj []) =
      [("field-0", .vstr "Sample text"), ("field-1", .vstr "enter contact"),
       ("field-2", .vnum 1)]
    ∧ strIncludes "enter contact" "@" = false := by
  constructor <;> decide



-- ===========================================================================
-- C6: idempotence of the node normalizer
-- ===========================================================================

/-- A Bool that is not true is false. -/
theorem bnot_false {b : Bool} (h : ¬ b = true) : b = false := by
  cases b
  · rfl
  · exact absurd rfl h

/-- strToNumber always yields a number value. -/
theorem strToNumber_cases (s : String) :
    (∃ n, strToNumber s = .vnum n) ∨ strToNumber s = .vnan := by
  simp only [strToNumber]
  by_cases h : strTrim s = ""
  · exact Or.inl ⟨0, by simp [h]⟩
  · cases hm : strToIntOpt (strTrim s) with
    | some n => exact Or.inl ⟨n, by simp [h, hm]⟩
    | none => exact Or.inr (by simp [h, hm])

/-- Number() is idempotent. -/
theorem jsNumber_idem (v : Val) : jsNumber (jsNumber v) = jsNumber v := by
  have hs : ∀ s, jsNumber (strToNumber s) = strToNumber s := by
    intro s
    rcases strToNumber_cases s with ⟨n, h⟩ | h <;> rw [h] <;> rfl
  cases v
  case vstr s => exact hs s
  case varr xs => exact hs _
  all_goals rfl

/-- Number() never yields undefined. -/
theorem jsNumber_ne_vundef (v : Val) : jsNumber v ≠ .vundef := by
  have hs : ∀ s, strToNumber s ≠ Val.vundef := by
    intro s
    rcases strToNumber_cases s with ⟨n, h⟩ | h <;> rw [h] <;> intro hc <;> cases hc
  cases v
  case vstr s => exact hs s
  case varr xs => exact hs _
  all_goals intro hc <;> cases hc

/-- Field read on a literal object. -/
theorem getField_obj (fs : List (String × Val)) (k : String) :
    getField (.vobj fs) k = (olookup fs k).getD .vundef := rfl

/-- Lookup through a conditional chunk followed by more fields. -/
theorem olookup_optChunk_append (c : Bool) (k : String) (v : Val)
    (l : List (String × Val)) (q : String) :
    olookup (optChunk c k v ++ l) q =
      if k = q then (if c then some v else olookup l q) else olookup l q := by
  by_cases h : k = q <;> cases c <;> simp [optChunk, olookup, h]

/-- Lookup in a final conditional chunk. -/
theorem olookup_optChunk_end (c : Bool) (k : String) (v : Val) (q : String) :
    olookup (optChunk c k v) q =
      if k = q then (if c then some v else none) else none := by
  by_cases h : k = q <;> cases c <;> simp [optChunk, olookup, h]

/-- The normalizer, with its let binding expanded. -/
theorem normalizeNode_eq (m : Val) :
    normalizeNode m = .vobj (
      [("type", .vstr (jsString (getField m "type"))),
       ("name", .vstr (jsString (getField m "name"))),
       ("position", .varr [jsNumber (getIndex (getField m "position") 0),
                           jsNumber (getIndex (getField m "position") 1)]),
       ("typeVersion",
         if getField m "typeVersion" ≠ .vundef then jsNumber (getField m "typeVersion")
         else .vnum 1)]
      ++ optChunk (!isNullOrUndef (getField m "parameters")) "parameters"
          (getField m "parameters")
      ++ optChunk (!isNullOrUndef (getField m "id")
            && strTrim (jsString (getField m "id")) != "") "id"
          (.vstr (jsString (getField m "id")))
      ++ optChunk (!isNullOrUndef (getField m "credentials")) "credentials"
          (getField m "credentials")
      ++ optChunk (getField m "disabled" != .vundef) "disabled"
          (jsBool (getField m "disabled"))
      ++ optChunk (!isNullOrUndef (getField m "notes")) "notes"
          (.vstr (jsString (getField m "notes")))
      ++ optChunk (getField m "notesInFlow" != .vundef) "notesInFlow"
          (jsBool (getField m "notesInFlow"))
      ++ optChunk (!isNullOrUndef (getField m "onError")) "onError"
          (.vstr (jsString (getField m "onError")))
      ++ optChunk (getField m "retryOnFail" != .vundef) "retryOnFail"
          (jsBool (getField m "retryOnFail"))
      ++ optChunk (getField m "maxTries" != .vundef) "maxTries"
          (jsNumber (getField m "maxTries"))
      ++ optChunk (getField m "waitBetweenTries" != .vundef) "waitBetweenTries"
          (jsNumber (getField m "waitBetweenTries"))
      ++ optChunk (!isNullOrUndef (getField m "webhookId")) "webhookId"
          (.vstr (jsString (getField m "webhookId")))
      ++ optChunk (getField m "executeOnce" != .vundef) "executeOnce"
          (jsBool (getField m "executeOnce"))
      ++ optChunk (getField m "alwaysOutputData" != .vundef) "alwaysOutputData"
          (jsBool (getField m "alwaysOutputData"))) := rfl

theorem nn_type (n : Val) :
    getField (normalizeNode n) "type" = .vstr (jsString (getField n "type")) := by
  rw [normalizeNode_eq]; rfl

theorem nn_name (n : Val) :
    getField (normalizeNode n) "name" = .vstr (jsString (getField n "name")) := by
  rw [normalizeNode_eq]; rfl

theorem nn_position (n : Val) :
    getField (normalizeNode n) "position" =
      .varr [jsNumber (getIndex (getField n "position") 0),
             jsNumber (getIndex (getField n "position") 1)] := by
  rw [normalizeNode_eq]; rfl

theorem nn_typeVersion (n : Val) :
    getField (normalizeNode n) "typeVersion" =
      (if getField n "typeVersion" ≠ .vundef then jsNumber (getField n "typeVersion")
       else .vnum 1) := by
  rw [normalizeNode_eq]; rfl

theorem nn_parameters (n : Val) :
    getField (normalizeNode n) "parameters" =
      (if !isNullOrUndef (getField n "parameters") then getField n "parameters"
       else Val.vundef) := by
  rw [normalizeNode_eq]
  by_cases hc : (!isNullOrUndef (getField n "parameters")) = true <;>
    simp [getField_obj, olookup, olookup_optChunk_append, olookup_optChunk_end,
      List.append_assoc, hc]

theorem nn_id (n : Val) :
    getField (normalizeNode n) "id" =
      (if !isNullOrUndef (getField n "id")
          && strTrim (jsString (getField n "id")) != ""
       then Val.vstr (jsString (getField n "id")) else Val.vundef) := by
  rw [normalizeNode_eq]
  by_cases hc : (!isNullOrUndef (getField n "id")
      && strTrim (jsString (getField n "id")) != "") = true <;>
    simp [getField_obj, olookup, olookup_optChunk_append, olookup_optChunk_end,
      List.append_assoc, hc]

theorem nn_credentials (n : Val) :
    getField (normalizeNode n) "credentials" =
      (if !isNullOrUndef (getField n "credentials") then getField n "credentials"
       else Val.vundef) := by
  rw [normalizeNode_eq]
  by_cases hc : (!isNullOrUndef (getField n "credentials")) = true <;>
    simp [getField_obj, olookup, olookup_optChunk_append, olookup_optChunk_end,
      List.append_assoc, hc]

theorem nn_disabled (n : Val) :
    getField (normalizeNode n) "disabled" =
      (if getField n "disabled" != Val.vundef then jsBool (getField n "disabled")
       else Val.vundef) := by
  rw [normalizeNode_eq]
  by_cases hc : (getField n "disabled" != Val.vundef) = true <;>
    simp [getField_obj, olookup, olookup_optChunk_append, olookup_optChunk_end,
      List.append_assoc, hc]

theorem nn_notes (n : Val) :
    getField (normalizeNode n) "notes" =
      (if !isNullOrUndef (getField n "notes")
       then Val.vstr (jsString (getField n "notes")) else Val.vundef) := by
  rw [normalizeNode_eq]
  by_cases hc : (!isNullOrUndef (getField n "notes")) = true <;>
    simp [getField_obj, olookup, olookup_optChunk_append, olookup_optChunk_end,
      List.append_assoc, hc]

theorem nn_notesInFlow (n : Val) :
    getField (normalizeNode n) "notesInFlow" =
      (if getField n "notesInFlow" != Val.vundef then jsBool (getField n "notesInFlow")
       else Val.vundef) := by
  rw [normalizeNode_eq]
  by_cases hc : (getField n "notesInFlow" != Val.vundef) = true <;>
    simp [getField_obj, olookup, olookup_optChunk_append, olookup_optChunk_end,
      List.append_assoc, hc]

theorem nn_onError (n : Val) :
    getField (normalizeNode n) "onError" =
      (if !isNullOrUndef (getField n "onError")
       then Val.vstr (jsString (getField n "onError")) else Val.vundef) := by
  rw [normalizeNode_eq]
  by_cases hc : (!isNullOrUndef (getField n "onError")) = true <;>
    simp [getField_obj, olookup, olookup_optChunk_append, olookup_optChunk_end,
      List.append_assoc, hc]

theorem nn_retryOnFail (n : Val) :
    getField (normalizeNode n) "retryOnFail" =
      (if getField n "retryOnFail" != Val.vundef then jsBool (getField n "retryOnFail")
       else Val.vundef) := by
  rw [normalizeNode_eq]
  by_cases hc : (getField n "retryOnFail" != Val.vundef) = true <;>
    simp [getField_obj, olookup, olookup_optChunk_append, olookup_optChunk_end,
      List.append_assoc, hc]

theorem nn_maxTries (n : Val) :
    getField (normalizeNode n) "maxTries" =
      (if getField n "maxTries" != Val.vundef then jsNumber (getField n "maxTries")
       else Val.vundef) := by
  rw [normalizeNode_eq]
  by_cases hc : (getField n "maxTries" != Val.vundef) = true <;>
    simp [getField_obj, olookup, olookup_optChunk_append, olookup_optChunk_end,
      List.append_assoc, hc]

theorem nn_waitBetweenTries (n : Val) :
    getField (normalizeNode n) "waitBetweenTries" =
      (if getField n "waitBetweenTries" != Val.vundef
       then jsNumber (getField n "waitBetweenTries") else Val.vundef) := by
  rw [normalizeNode_eq]
  by_cases hc : (getField n "waitBetweenTries" != Val.vundef) = true <;>
    simp [getField_obj, olookup, olookup_optChunk_append, olookup_optChunk_end,
      List.append_assoc, hc]

theorem nn_webhookId (n : Val) :
    getField (normalizeNode n) "webhookId" =
      (if !isNullOrUndef (getField n "webhookId")
       then Val.vstr (jsString (getField n "webhookId")) else Val.vundef) := by
  rw [normalizeNode_eq]
  by_cases hc : (!isNullOrUndef (getField n "webhookId")) = true <;>
    simp [getField_obj, olookup, olookup_optChunk_append, olookup_optChunk_end,
      List.append_assoc, hc]

theorem nn_executeOnce (n : Val) :
    getField (normalizeNode n) "executeOnce" =
      (if getField n "executeOnce" != Val.vundef then jsBool (getField n "executeOnce")
       else Val.vundef) := by
  rw [normalizeNode_eq]
  by_cases hc : (getField n "executeOnce" != Val.vundef) = true <;>
    simp [getField_obj, olookup, olookup_optChunk_append, olookup_optChunk_end,
      List.append_assoc, hc]

theorem nn_alwaysOutputData (n : Val) :
    getField (normalizeNode n) "alwaysOutputData" =
      (if getField n "alwaysOutputData" != Val.vundef
       then jsBool (getField n "alwaysOutputData") else Val.vundef) := by
  rw [normalizeNode_eq]
  by_cases hc : (getField n "alwaysOutputData" != Val.vundef) = true <;>
    simp [getField_obj, olookup, olookup_optChunk_append, olookup_optChunk_end,
      List.append_assoc, hc]

/-- Re-normalizing a copied optional chunk (parameters/credentials style). -/
theorem chunk_copy_idem (k : String) (X : Val) :
    optChunk (!isNullOrUndef (if !isNullOrUndef X then X else Val.vundef)) k
        (if !isNullOrUndef X then X else Val.vundef)
      = optChunk (!isNullOrUndef X) k X := by
  by_cases hc : (!isNullOrUndef X) = true
  · rw [if_pos hc]
  · rw [if_neg hc, bnot_false hc]
    rfl

/-- Re-normalizing a string-coerced optional chunk. -/
theorem chunk_str_idem (k : String) (X : Val) :
    optChunk (!isNullOrUndef (if !isNullOrUndef X then Val.vstr (jsString X)
        else Val.vundef)) k
        (.vstr (jsString (if !isNullOrUndef X then Val.vstr (jsString X)
          else Val.vundef)))
      = optChunk (!isNullOrUndef X) k (.vstr (jsString X)) := by
  by_cases hc : (!isNullOrUndef X) = true
  · rw [if_pos hc, hc]
    rfl
  · rw [if_neg hc, bnot_false hc]
    rfl

/-- Re-normalizing a boolean-coerced optional chunk. -/
theorem chunk_bool_idem (k : String) (X : Val) :
    optChunk ((if X != Val.vundef then jsBool X else Val.vundef) != Val.vundef) k
        (jsBool (if X != Val.vundef then jsBool X else Val.vundef))
      = optChunk (X != Val.vundef) k (jsBool X) := by
  by_cases hc : (X != Val.vundef) = true
  · rw [if_pos hc, hc]
    rfl
  · rw [if_neg hc, bnot_false hc]
    rfl

/-- Re-normalizing a number-coerced optional chunk. -/
theorem chunk_num_idem (k : String) (X : Val) :
    optChunk ((if X != Val.vundef then jsNumber X else Val.vundef) != Val.vundef) k
        (jsNumber (if X != Val.vundef then jsNumber X else Val.vundef))
      = optChunk (X != Val.vundef) k (jsNumber X) := by
  by_cases hc : (X != Val.vundef) = true
  · rw [if_pos hc, hc, jsNumber_idem]
    have h2 : (jsNumber X != Val.vundef) = true := bne_iff_ne.mpr (jsNumber_ne_vundef X)
    rw [h2]
  · rw [if_neg hc, bnot_false hc]
    rfl

/-- Re-normalizing the trimmed-id optional chunk. -/
theorem chunk_id_idem (X : Val) :
    optChunk (!isNullOrUndef (if !isNullOrUndef X && strTrim (jsString X) != ""
          then Val.vstr (jsString X) else Val.vundef)
        && strTrim (jsString (if !isNullOrUndef X && strTrim (jsString X) != ""
          then Val.vstr (jsString X) else Val.vundef)) != "") "id"
        (.vstr (jsString (if !isNullOrUndef X && strTrim (jsString X) != ""
          then Val.vstr (jsString X) else Val.vundef)))
      = optChunk (!isNullOrUndef X && strTrim (jsString X) != "") "id"
          (.vstr (jsString X)) := by
  by_cases hc : (!isNullOrUndef X && strTrim (jsString X) != "") = true
  · rw [if_pos hc, hc]
    have h2 : (strTrim (jsString X) != "") = true := ((Bool.and_eq_true _ _).mp hc).2
    show optChunk (strTrim (jsString X) != "") "id" (Val.vstr (jsString X))
        = optChunk true "id" (Val.vstr (jsString X))
    rw [h2]
  · rw [if_neg hc, bnot_false hc]
    rfl

/-- Re-normalizing the typeVersion default. -/
theorem tv_idem (X : Val) :
    (if (if X ≠ Val.vundef then jsNumber X else Val.vnum 1) ≠ Val.vundef
     then jsNumber (if X ≠ Val.vundef then jsNumber X else Val.vnum 1)
     else Val.vnum 1)
    = (if X ≠ Val.vundef then jsNumber X else Val.vnum 1) := by
  by_cases hx : X = Val.vundef
  · subst hx
    decide
  · rw [if_pos hx, if_pos (jsNumber_ne_vundef X), jsNumber_idem]

/-- Re-normalizing an already-normalized position pair. -/
theorem pos_idem (a b : Val) :
    Val.varr [jsNumber (getIndex (.varr [jsNumber a, jsNumber b]) 0),
              jsNumber (getIndex (.varr [jsNumber a, jsNumber b]) 1)]
      = .varr [jsNumber a, jsNumber b] := by
  show Val.varr [jsNumber (jsNumber a), jsNumber (jsNumber b)]
      = .varr [jsNumber a, jsNumber b]
  rw [jsNumber_idem, jsNumber_idem]

/-- C6: the node normalizer of createN8nWorkflow is idempotent; for every node
(in particular every node passing the structural validation), normalizing twice
equals normalizing once. -/
theorem C6_normalizer_idempotent (node : Val) (_h : nodeInvalid node = false) :
    normalizeNode (normalizeNode node) = normalizeNode node := by
  rw [normalizeNode_eq (normalizeNode node),
      nn_type node, nn_name node, nn_position node, nn_typeVersion node,
      nn_parameters node, nn_id node, nn_credentials node, nn_disabled node,
      nn_notes node, nn_notesInFlow node, nn_onError node, nn_retryOnFail node,
      nn_maxTries node, nn_waitBetweenTries node, nn_webhookId node,
      nn_executeOnce node, nn_alwaysOutputData node,
      pos_idem, tv_idem,
      chunk_copy_idem, chunk_id_idem, chunk_copy_idem,
      chunk_bool_idem, chunk_str_idem, chunk_bool_idem, chunk_str_idem,
      chunk_bool_idem, chunk_num_idem, chunk_num_idem, chunk_str_idem,
      chunk_bool_idem, chunk_bool_idem]
  rfl

/-- Witness for C6 at a concrete valid node. -/
theorem C6_witness :
    nodeInvalid sampleNode = false ∧
      normalizeNode (normalizeNode sampleNode) = normalizeNode sampleNode :=
  ⟨by decide, C6_normalizer_idempotent sampleNode (by decide)⟩

end N8n
